import Mathlib

/-!
Shallow embedding of the room/session engine of the party-game server
(`src/packages/server/dist/index.js`).  JavaScript strings are modelled as
`List Char` (`Str`), JavaScript numbers as `ℚ` (exact rational arithmetic in
place of IEEE doubles; every numeric constant in the engine is a short
decimal, so the formula structure is represented exactly).  JavaScript
objects used as string-keyed maps are modelled as association lists with
JS-object update semantics (update the first matching key in place, append
new keys at the end).  Transport-level concerns (socket ids, broadcasts,
result callbacks) are outside the engine's state: a handler is a function
from the room state and the request data to `Except Err Room`, and every
error path of the original returns before any mutation, which the
`Except` embedding mirrors.  Sources of nondeterminism (Date.now(),
Math.random(), nanoid) are passed in as explicit arguments.
-/

/-- JavaScript strings, modelled as lists of characters so that all string
operations are structurally recursive and kernel-computable. -/
abbrev Str := List Char

/-- Embed a Lean string literal as a `Str`. -/
def str (s : String) : Str := s.data

/-- Character lowercasing as in JS `toLowerCase` restricted to ASCII. -/
def lowerChar (c : Char) : Char :=
  if 'A' ≤ c ∧ c ≤ 'Z' then Char.ofNat (c.toNat + 32) else c

/-- JS `String.prototype.toLowerCase` (ASCII fragment). -/
def sLower (s : Str) : Str := s.map lowerChar

/-- JS whitespace test used by `trim` (space, tab, CR, LF). -/
def isWs (c : Char) : Bool := c = ' ' ∨ c = '\t' ∨ c = '\r' ∨ c = '\n'

/-- JS `String.prototype.trim`. -/
def sTrim (s : Str) : Str :=
  ((s.dropWhile isWs).reverse.dropWhile isWs).reverse

/-- JS `String.prototype.trimStart` (used by option-label stripping). -/
def sTrimStart (s : Str) : Str := s.dropWhile isWs

/-- Does `s` start with `pat`?  (JS `startsWith`.) -/
def startsWithL : Str → Str → Bool
  | _, [] => true
  | [], _ :: _ => false
  | c :: s, p :: ps => c = p && startsWithL s ps

/-- JS `String.prototype.includes`: substring containment. -/
def containsSub : Str → Str → Bool
  | [], pat => pat.isEmpty
  | c :: s, pat => startsWithL (c :: s) pat || containsSub s pat

/-- Split a string at newline characters (JS `split(/\r?\n/)` followed by
`trim`, so the CR is absorbed by the trim that every caller applies). -/
def splitNl (s : Str) : List Str :=
  (s.foldr (fun c acc =>
    match acc with
    | cur :: rest => if c = '\n' then [] :: cur :: rest else (c :: cur) :: rest
    | [] => [[c]]) [[]])

/-- Digit run parser: value of a list of decimal digits. -/
def digitsVal (ds : Str) : Nat :=
  ds.foldl (fun a c => a * 10 + (c.toNat - '0'.toNat)) 0

/-- JS `text.match(/(\d+)/)`: first maximal run of decimal digits, as a
number, or `none` when the text has no digit. -/
def firstNumber : Str → Option Nat
  | [] => none
  | c :: s =>
    if c.isDigit then
      some (digitsVal (c :: s.takeWhile Char.isDigit))
    else firstNumber s

/-- JS `Math.round` on exact rationals: round half away from zero upwards,
i.e. `⌊x + 1/2⌋`. -/
def jsRound (x : ℚ) : ℤ := ⌊x + 1/2⌋

/-- Card categories of the catalog (`counts` object keys in
`pickWeightedNextCard`). -/
inductive CardType
  | forfeit | rule | role | curse | event | joker | setup | endgame
deriving DecidableEq, Repr

/-- Resolution kinds declared by catalog cards (`card.resolution.kind`). -/
inductive ResKind
  | none | chooseTarget | chooseTwoTargets | chooseNumber
  | chooseTargetAndNumber | createRuleText | rockPaperScissors
  | wouldYouRather
deriving DecidableEq, Repr

/-- An immutable catalog card. -/
structure Card where
  id : Str
  type : CardType
  title : Str
  body : Str
  resolution : ResKind
deriving DecidableEq, Repr

/-- The `byId` map: catalog lookup keyed by card id. -/
abbrev Catalog := List Card

/-- `byId.get`, first card with the given id. -/
def catFind (cat : Catalog) (id : Str) : Option Card :=
  cat.find? (fun c => c.id = id)

/-- Player mode (`"player"` or `"spectator"`). -/
inductive PMode | player | spectator
deriving DecidableEq, Repr

/-- A room member.  Socket ids are transport-level and omitted; `connected`
is the connection flag the engine mutates.  `seatIndex` is `-1` for
spectators. -/
structure Player where
  playerId : Str
  name : Str
  seatIndex : ℤ
  connected : Bool
  mode : PMode
deriving DecidableEq, Repr

/-- `room.currentDraw`. -/
structure Draw where
  cardId : Str
  drawnByPlayerId : Str
deriving DecidableEq, Repr

/-- `room.turnTimer` (a JS object; `room.turnTimer = null` is modelled by
`Option` at the room level).  `reason` is set only on disabled timers. -/
structure TurnTimer where
  enabled : Bool
  secondsTotal : Nat
  endsAt : Nat
  reason : Option Str := Option.none
deriving DecidableEq, Repr

/-- A standing rule in `activeEffects.rules`. -/
structure RuleEntry where
  id : Str
  text : Str
  createdBy : Str
deriving DecidableEq, Repr

/-- `room.activeEffects`.  The role/curse maps are JS objects keyed by
player id. -/
structure ActiveEffects where
  rules : List RuleEntry
  rolesByPlayerId : List (Str × Str)
  cursesByPlayerId : List (Str × Str)
  currentEvent : Option (Str × Str)
deriving DecidableEq, Repr

/-- Ack status (`"pending"` / `"confirmed"`). -/
inductive AckStatus | pending | confirmed
deriving DecidableEq, Repr

/-- Structured metadata attached by `createAck`. -/
structure AckMeta where
  kind : ResKind
  numberValue : ℚ
  ruleText : Str
  targets : List Str
deriving DecidableEq, Repr

/-- A pending confirmation receipt. -/
structure Ack where
  ackId : Str
  createdAt : Nat
  cardId : Str
  cardTitle : Str
  instruction : Str
  createdByPlayerId : Str
  assignedToPlayerId : Str
  status : AckStatus
  confirmedAt : Option Nat := Option.none
  meta : AckMeta
deriving DecidableEq, Repr

/-- Rock-paper-scissors choices. -/
inductive RpsChoice | rock | paper | scissors
deriving DecidableEq, Repr

/-- Binary votes of the group-vote mini-game. -/
inductive Vote | A | B
deriving DecidableEq, Repr

/-- The duel interaction (`kind: "rps"`), with its choices object. -/
structure RpsInter where
  cardId : Str
  startedByPlayerId : Str
  opponentPlayerId : Str
  createdAt : Nat
  expiresAt : Nat
  choices : List (Str × RpsChoice)
deriving DecidableEq, Repr

/-- The group-vote interaction (`kind: "wyr"`), with its votes object. -/
structure WyrInter where
  cardId : Str
  startedByPlayerId : Str
  createdAt : Nat
  expiresAt : Nat
  optionA : Str
  optionB : Str
  votes : List (Str × Vote)
deriving DecidableEq, Repr

/-- `room.interaction`: tagged union of the two mini-games. -/
inductive Interaction
  | rps (i : RpsInter)
  | wyr (i : WyrInter)
deriving DecidableEq, Repr

/-- Expiry time of either interaction. -/
def Interaction.expiresAt : Interaction → Nat
  | .rps i => i.expiresAt
  | .wyr i => i.expiresAt

/-- A log entry.  The engine stores a timestamp, a type tag and display
text; the display text is presentation-only free text that no claim (and no
engine branch) reads back, so only the timestamp and the type tag are
modelled. -/
structure LogEntry where
  ts : Nat
  type : Str
deriving DecidableEq, Repr

/-- Per-player drink accumulators. -/
structure DrinkStat where
  given : ℚ
  taken : ℚ
deriving DecidableEq, Repr

/-- `room.settings`.  The presentation-only fields (theme, sfx, haptics)
are not modelled; `customDeckOrder` is the empty list when unset (the
engine checks `customDeckOrder?.length`, so `[]` and `undefined` behave
identically). -/
structure Settings where
  safeMode : Bool
  dynamicWeighting : Bool
  customDeckOrder : List Str
deriving DecidableEq, Repr

/-- The authoritative per-room state. -/
structure Room where
  roomCode : Str
  deckOrder : List Str
  drawIndex : Nat
  discard : List Str
  players : List Player
  spectators : List Player
  turnIndex : Nat
  started : Bool
  paused : Bool
  currentDraw : Option Draw
  turnTimer : Option TurnTimer
  interaction : Option Interaction
  activeEffects : ActiveEffects
  log : List LogEntry
  settings : Settings
  drinkStats : List (Str × DrinkStat)
  pendingAcks : List Ack
  awaitingAcksForCardId : Option Str
  createdAt : Nat
  lastActivity : Nat
  afkNudged : Option (Str × Nat)
deriving DecidableEq, Repr

/-- The resolution payload of `card:resolve`.  Absent JS fields are the
falsy defaults the handler substitutes (`""` and `0`). -/
structure Resolution where
  targetPlayerId : Str := []
  targetPlayerId2 : Str := []
  numberValue : ℚ := 0
  ruleText : Str := []
deriving DecidableEq, Repr

/-- Tagged error results returned to callers. -/
inductive Err
  | INVALID_INPUT | INVALID_ROOM_CODE | INVALID_PLAYER_ID | INVALID_NAME
  | ROOM_NOT_FOUND | GAME_NOT_STARTED | PAUSED
  | NO_TURN_PLAYER | NOT_YOUR_TURN | UNRESOLVED_CARD | INTERACTION_ACTIVE
  | CARD_NOT_FOUND | NO_ACTIVE_DRAW | CARD_MISMATCH | NOT_DRAWER
  | MISSING_TARGET | MISSING_TARGETS | MISSING_RULE_TEXT | INVALID_TARGET
  | NO_INTERACTION | NOT_PARTICIPANT | SPECTATORS_CANNOT_VOTE
  | ACK_NOT_FOUND | NOT_YOUR_ACK
  | NOT_HOST | EMPTY_DECK | PLAYER_NOT_FOUND | CANNOT_KICK_SELF
  | NAME_TAKEN
deriving DecidableEq, Repr

instance {ε α : Type} [DecidableEq ε] [DecidableEq α] :
    DecidableEq (Except ε α) := fun x y =>
  match x, y with
  | .ok a, .ok b =>
    if h : a = b then .isTrue (congrArg Except.ok h)
    else .isFalse (fun hh => h (Except.ok.inj hh))
  | .error a, .error b =>
    if h : a = b then .isTrue (congrArg Except.error h)
    else .isFalse (fun hh => h (Except.error.inj hh))
  | .ok _, .error _ => .isFalse (fun hh => Except.noConfusion hh)
  | .error _, .ok _ => .isFalse (fun hh => Except.noConfusion hh)

/-- Association-list lookup with JS-object semantics (first match). -/
def alookup {α : Type} (m : List (Str × α)) (k : Str) : Option α :=
  (m.find? (fun e => e.1 = k)).map Prod.snd

/-- Association-list write with JS-object semantics: update the first
binding of the key in place, append a new binding otherwise. -/
def aset {α : Type} : List (Str × α) → Str → α → List (Str × α)
  | [], k, v => [(k, v)]
  | (k0, v0) :: rest, k, v =>
    if k0 = k then (k0, v) :: rest else (k0, v0) :: aset rest k v

/-- JS `delete obj[k]`. -/
def aerase {α : Type} (m : List (Str × α)) (k : Str) : List (Str × α) :=
  m.filter (fun e => ¬(e.1 = k))

/-- `pushLog`: append an entry, trimming the log to its newest 200
entries. -/
def pushLog (log : List LogEntry) (e : LogEntry) : List LogEntry :=
  let l := log ++ [e]
  if l.length > 200 then l.drop (l.length - 200) else l

/-- Append a log entry of the given type tag to the room. -/
def pushLogR (room : Room) (now : Nat) (ty : Str) : Room :=
  { room with log := pushLog room.log ⟨now, ty⟩ }

/-- `updateRoomActivity`: refresh the last-activity timestamp (the cleanup
scheduling side of it is registry-level). -/
def touchActivity (room : Room) (now : Nat) : Room :=
  { room with lastActivity := now }

/-- `room.currentDraw = null; room.turnTimer = null`. -/
def clearDrawTimer (room : Room) : Room :=
  { room with currentDraw := Option.none, turnTimer := Option.none }

/-- `ensurePlayerStats` + `taken += n` (the `bumpTaken` closures of the
vote/duel/timeout resolution code). -/
def bumpTaken (m : List (Str × DrinkStat)) (pid : Str) (n : ℚ) :
    List (Str × DrinkStat) :=
  let cur := (alookup m pid).getD ⟨0, 0⟩
  aset m pid { cur with taken := cur.taken + n }

/-- The `bump(pid, field, n)` closure of `applyDrinkStats`: skips a falsy
(empty) player id. -/
def bumpField (m : List (Str × DrinkStat)) (pid : Str) (given : Bool)
    (n : ℚ) : List (Str × DrinkStat) :=
  if pid = [] then m
  else
    let cur := (alookup m pid).getD ⟨0, 0⟩
    aset m pid
      (if given then { cur with given := cur.given + n }
       else { cur with taken := cur.taken + n })

/-- `activePlayers`: room members in player mode. -/
def activePlayers (room : Room) : List Player :=
  room.players.filter (fun p => p.mode = PMode.player)

/-- `currentTurnPlayer`: the active player seated at `turnIndex`. -/
def currentTurnPlayer (room : Room) : Option Player :=
  (activePlayers room).find? (fun p => p.seatIndex = (room.turnIndex : ℤ))

/-- `assertIsTurnPlayer`, as the error it returns (or `none` for ok). -/
def assertIsTurnPlayer (room : Room) (playerId : Str) : Option Err :=
  match currentTurnPlayer room with
  | Option.none => some Err.NO_TURN_PLAYER
  | some cur =>
    if cur.playerId = playerId then Option.none else some Err.NOT_YOUR_TURN

/-- `nextTurn`: advance `turnIndex` modulo the live active-player count
(reset to 0 when no active player remains).  The player id the original
returns feeds broadcasts only and is not part of the room state. -/
def nextTurn (room : Room) : Room :=
  let ap := activePlayers room
  if ap.length = 0 then { room with turnIndex := 0 }
  else { room with turnIndex := (room.turnIndex + 1) % ap.length }

/-- `isHost`: the caller is the active player seated at 0. -/
def isHost (room : Room) (playerId : Str) : Bool :=
  match (activePlayers room).find? (fun p => p.seatIndex = (0 : ℤ)) with
  | some p => p.playerId = playerId
  | Option.none => false

/-- `sanitizeDeckOrder`: keep only ids of the base catalog. -/
def sanitizeDeckOrder (cat : Catalog) (order : List Str) : List Str :=
  order.filter (fun id => (catFind cat id).isSome)

/-- `isValidPlayerId`: 6–21 characters from `[a-zA-Z0-9_-]`. -/
def isValidPlayerId (id : Str) : Bool :=
  6 ≤ id.length ∧ id.length ≤ 21 ∧
    id.all (fun c =>
      ('a' ≤ c ∧ c ≤ 'z') ∨ ('A' ≤ c ∧ c ≤ 'Z') ∨ c.isDigit ∨
      c = '-' ∨ c = '_')

/-- `isValidRoomCode`: exactly 6 characters from `[A-Z0-9]`. -/
def isValidRoomCode (code : Str) : Bool :=
  code.length = 6 ∧ code.all (fun c => ('A' ≤ c ∧ c ≤ 'Z') ∨ c.isDigit)

/-- `isNameTaken`: case-insensitive collision over players and
spectators. -/
def isNameTaken (room : Room) (name : Str) : Bool :=
  (room.players.map (fun p => sLower p.name) ++
    room.spectators.map (fun s => sLower s.name)).contains (sLower name)

/-- JS `array.slice(-n)`. -/
def lastN {α : Type} (xs : List α) (n : Nat) : List α :=
  xs.drop (xs.length - n)

/-- The deck order in effect: the custom order when non-empty, else the
base order (`customDeckOrder?.length ? … : …`). -/
def effOrder (room : Room) : List Str :=
  if room.settings.customDeckOrder = [] then room.deckOrder
  else room.settings.customDeckOrder

/-- The fixed per-type base-weight table of `pickWeightedNextCard`. -/
def baseWeight (safeMode : Bool) : CardType → ℚ
  | .forfeit => if safeMode then 7/10 else 1
  | .rule => 11/10
  | .role => 1
  | .curse => 9/10
  | .event => 1
  | .joker => 9/10
  | .setup => 8/10
  | .endgame => 6/10

/-- Occurrences of a card type among the catalog entries of the recent
discards (the `counts` object). -/
def typeCount (cat : Catalog) (recent : List Str) (t : CardType) : Nat :=
  (recent.filterMap (catFind cat)).countP (fun c => c.type = t)

/-- The roulette loop of `pickWeightedNextCard`: subtract weights in order
until the running value is non-positive; when the loop exhausts the list,
fall back to the last candidate (the accumulator tracks it). -/
def rouletteLoop : List (Str × ℚ) → ℚ → Option Str → Option Str
  | [], _, lastId => lastId
  | (id, w) :: rest, r, _ =>
    if r - w ≤ 0 then some id else rouletteLoop rest (r - w) (some id)

/-- `pickWeightedNextCard`, with `u` standing for the `Math.random()`
sample in `[0, 1)`. -/
def pickWeightedNextCard (cat : Catalog) (room : Room) (u : ℚ) :
    Option Str :=
  let recent := lastN room.discard 8
  let candidates := (effOrder room).filterMap (catFind cat)
  let safeMode := room.settings.safeMode
  let forfeitPenalty : ℚ :=
    if typeCount cat recent .forfeit ≥ 4 then 1/2
    else if typeCount cat recent .forfeit ≥ 3 then 7/10
    else 1
  let weighted := candidates.map (fun c =>
    let w0 := baseWeight safeMode c.type
    let w1 := if c.id ∈ recent then w0 * (1/4) else w0
    let w2 := if c.type = .forfeit then w1 * forfeitPenalty else w1
    let w3 := if typeCount cat recent c.type ≥ 2 then w2 * (13/20) else w2
    (c.id, max (1/20) w3))
  let total := (weighted.map Prod.snd).sum
  rouletteLoop weighted (u * total) Option.none

/-- Result of `computeTimer`. -/
structure TimerSpec where
  enabled : Bool
  seconds : Nat
  reason : Option Str := Option.none
deriving DecidableEq, Repr

/-- The open-ended/discussion text markers that disable the timer. -/
def longRoundHints : List Str :=
  [str "go around", str "truth circle", str "confessional", str "vote",
   str "category", str "speed round", str "draw nonstop",
   str "for one round"]

/-- The kind-specific additions of `computeTimer`'s switch. -/
def kindBonus : ResKind → Nat
  | .chooseTarget => 10
  | .rockPaperScissors => 10
  | .chooseNumber => 10
  | .chooseTargetAndNumber => 20
  | .chooseTwoTargets => 25
  | _ => 0

/-- `computeTimer` (the version in `dist/index.js`, the one the draw
handler calls). -/
def computeTimer (card : Card) : TimerSpec :=
  if card.resolution = ResKind.createRuleText then
    ⟨false, 0, some (str "Custom rule entry")⟩
  else
    let t := sLower (card.title ++ [' '] ++ card.body)
    if longRoundHints.any (fun h => containsSub t h) then
      ⟨false, 0, some (str "Long round / discussion card")⟩
    else
      let s2 := if card.type ∈ [CardType.rule, .role, .curse, .joker]
                then 45 else 30
      let s3 := if card.type = CardType.event then 60 else s2
      ⟨true, max 20 (min 90 (s3 + kindBonus card.resolution)), Option.none⟩

/-- `firstNumber(txt) || 1` (JS: a zero match is falsy and falls back). -/
def jsOr1 : Option Nat → Nat
  | some n => if n = 0 then 1 else n
  | Option.none => 1

/-- `applyCard`: the card-semantics dispatch.  The human-readable outcome
message feeds broadcasts/logs only; the state mutation is modelled.
`ruleId` stands for the generated `rule_<time>_<random>` identifier. -/
def applyCard (room : Room) (card : Card) (byPlayerId : Str)
    (res : Resolution) (ruleId : Str) : Room :=
  let title := sLower card.title
  let eff := room.activeEffects
  if containsSub title (str "cleanse curse") then
    let eff2 := { eff with cursesByPlayerId := aerase eff.cursesByPlayerId res.targetPlayerId }
    { room with activeEffects := eff2 }
  else if containsSub title (str "reset roles") then
    { room with activeEffects := { eff with rolesByPlayerId := [] } }
  else if containsSub title (str "transfer curse") then
    match alookup eff.cursesByPlayerId res.targetPlayerId with
    | Option.none => room
    | some curse =>
      let m2 := aerase (aset eff.cursesByPlayerId res.targetPlayerId2 curse) res.targetPlayerId
      { room with activeEffects := { eff with cursesByPlayerId := m2 } }
  else if card.type = CardType.rule then
    if card.resolution = ResKind.createRuleText then
      let rules2 := eff.rules ++ [⟨ruleId, sTrim res.ruleText, byPlayerId⟩]
      { room with activeEffects := { eff with rules := rules2 } }
    else if containsSub title (str "end all rules") ∨
        containsSub title (str "end rules") then
      { room with activeEffects := { eff with rules := [] } }
    else
      let rules2 := eff.rules ++ [⟨ruleId, card.body, byPlayerId⟩]
      { room with activeEffects := { eff with rules := rules2 } }
  else if card.type = CardType.role then
    let m2 := aset eff.rolesByPlayerId res.targetPlayerId card.title
    { room with activeEffects := { eff with rolesByPlayerId := m2 } }
  else if card.type = CardType.curse then
    let m2 := aset eff.cursesByPlayerId res.targetPlayerId card.title
    { room with activeEffects := { eff with cursesByPlayerId := m2 } }
  else if card.type = CardType.event ∨ card.type = CardType.joker then
    { room with activeEffects := { eff with currentEvent := some (card.id, card.title) } }
  else room

/-- `applyDrinkStats`: the heuristic drink-tally updater. -/
def applyDrinkStats (room : Room) (card : Card) (drawerId : Str)
    (res : Resolution) : Room :=
  let txt := sLower (card.title ++ [' '] ++ card.body)
  let safe : ℚ := if room.settings.safeMode then 1/2 else 1
  if containsSub txt (str "drink") ∧
      (card.resolution = ResKind.chooseTarget ∨
       card.resolution = ResKind.chooseTargetAndNumber) then
    let baseN : ℚ :=
      if card.resolution = ResKind.chooseTargetAndNumber then res.numberValue
      else (jsOr1 (firstNumber txt) : ℚ)
    let n : ℚ := max 1 ((jsRound (baseN * safe) : ℚ))
    let m2 := bumpField (bumpField room.drinkStats drawerId true n) res.targetPlayerId false n
    { room with drinkStats := m2 }
  else if containsSub txt (str "drink") ∧
      card.resolution = ResKind.chooseTwoTargets then
    let baseN : ℚ := (jsOr1 (firstNumber txt) : ℚ)
    let n : ℚ := max 1 ((jsRound (baseN * safe) : ℚ))
    let m2 := bumpField (bumpField (bumpField room.drinkStats drawerId true (n * 2))
        res.targetPlayerId false n) res.targetPlayerId2 false n
    { room with drinkStats := m2 }
  else if containsSub txt (str "take") ∧ containsSub txt (str "drink") then
    match firstNumber txt with
    | some b =>
      if b = 0 then room
      else
        let m2 := bumpField room.drinkStats drawerId false (max 1 ((jsRound ((b : ℚ) * safe) : ℚ)))
        { room with drinkStats := m2 }
    | Option.none => room
  else room

/-- `requiresAck`: the resolution kinds that spawn confirmation
receipts. -/
def requiresAck (card : Card) : Bool :=
  card.resolution = ResKind.chooseTarget ∨
  card.resolution = ResKind.chooseTwoTargets ∨
  card.resolution = ResKind.chooseTargetAndNumber

/-- `createAck`, with the generated nanoid passed in. -/
def createAck (card : Card) (createdBy assignedTo : Str) (meta : AckMeta)
    (ackId : Str) (now : Nat) : Ack :=
  { ackId := ackId, createdAt := now, cardId := card.id,
    cardTitle := card.title, instruction := card.body,
    createdByPlayerId := createdBy, assignedToPlayerId := assignedTo,
    status := AckStatus.pending, meta := meta }

/-- `finalizeWouldYouRather`: count A/B votes of active players, penalize
everyone on a tie and the minority side otherwise, clear the interaction
and advance the turn. -/
def finalizeWouldYouRather (room : Room) (now : Nat) : Room :=
  match room.interaction with
  | some (Interaction.wyr inter) =>
    let ap := (activePlayers room).map Player.playerId
    let votesA := ap.filter (fun pid => alookup inter.votes pid = some Vote.A)
    let votesB := ap.filter (fun pid => alookup inter.votes pid = some Vote.B)
    let stats :=
      if votesA.length = votesB.length then
        ap.foldl (fun m pid => bumpTaken m pid 1) room.drinkStats
      else if votesA.length < votesB.length then
        votesA.foldl (fun m pid => bumpTaken m pid 1) room.drinkStats
      else
        votesB.foldl (fun m pid => bumpTaken m pid 1) room.drinkStats
    let room1 := pushLogR { room with drinkStats := stats } now (str "system")
    nextTurn { room1 with interaction := Option.none }
  | _ => room

/-- Replace the first list element satisfying `p` (JS mutates the object
returned by `find`). -/
def mapFirst {α : Type} (p : α → Bool) (f : α → α) : List α → List α
  | [] => []
  | x :: xs => if p x then f x :: xs else x :: mapFirst p f xs

/-- `ensurePlayerStats`. -/
def ensureStats (m : List (Str × DrinkStat)) (pid : Str) :
    List (Str × DrinkStat) :=
  if (alookup m pid).isSome then m else aset m pid ⟨0, 0⟩

/-- The fixed beats-relation of the duel (`beats[x]` is what `x` wins
against). -/
def beats : RpsChoice → RpsChoice
  | .rock => .scissors
  | .paper => .rock
  | .scissors => .paper

/-- Strip a leading `a)` / `b)` label (case-insensitive) and following
whitespace from an option line. -/
def stripOptLabel (tag : Char) (l : Str) : Str :=
  if startsWithL (sLower l) [tag, ')'] then sTrimStart (l.drop 2) else l

/-- The success-path mutation of `turn:draw`: advance the cursor, discard
and install the draw, reset the nudge key, log, and start the computed
timer. -/
def applyDraw (room : Room) (cardId playerId : Str) (card : Card)
    (now : Nat) : Room :=
  let t := computeTimer card
  let tt : TurnTimer :=
    if t.enabled then ⟨true, t.seconds, now + t.seconds * 1000, Option.none⟩
    else ⟨false, 0, 0, t.reason⟩
  let room1 :=
    { room with
      drawIndex := room.drawIndex + 1,
      discard := room.discard ++ [cardId],
      currentDraw := some ⟨cardId, playerId⟩,
      afkNudged := Option.none }
  let room2 := pushLogR room1 now (str "draw")
  { room2 with turnTimer := some tt, lastActivity := now }

/-- The `turn:draw` handler. `u` is the `Math.random()` sample. -/
def turnDraw (cat : Catalog) (room : Room) (playerId : Str) (u : ℚ)
    (now : Nat) : Except Err Room :=
  if ¬(isValidRoomCode room.roomCode ∧ isValidPlayerId playerId) then
    .error .INVALID_INPUT
  else if ¬room.started then .error .GAME_NOT_STARTED
  else if room.paused then .error .PAUSED
  else match assertIsTurnPlayer room playerId with
  | some e => .error e
  | Option.none =>
    if room.currentDraw.isSome then .error .UNRESOLVED_CARD
    else if room.interaction.isSome then .error .INTERACTION_ACTIVE
    else
      let order := effOrder room
      let cardId? :=
        if room.settings.dynamicWeighting then pickWeightedNextCard cat room u
        else order.get? (room.drawIndex % order.length)
      match cardId? with
      | Option.none => .error .CARD_NOT_FOUND
      | some cardId =>
        match catFind cat cardId with
        | Option.none => .error .CARD_NOT_FOUND
        | some card => .ok (applyDraw room cardId playerId card now)

/-- The duel-launch mutation of `startInteractive`: clear the draw and
timer, install the duel with a 60-second absolute expiry, log, touch
activity. -/
def launchRps (room : Room) (card : Card) (playerId opponentId : Str)
    (now : Nat) : Room :=
  let inter : RpsInter := ⟨card.id, playerId, opponentId, now, now + 60000, []⟩
  let room1 :=
    { room with
      currentDraw := Option.none,
      turnTimer := Option.none,
      interaction := some (Interaction.rps inter) }
  touchActivity (pushLogR room1 now (str "resolve")) now

/-- The group-vote-launch mutation of `startInteractive`: parse the two
option labels out of the card body, clear the draw and timer, install the
vote with a 75-second absolute expiry, log, touch activity. -/
def launchWyr (room : Room) (card : Card) (playerId : Str) (now : Nat) :
    Room :=
  let lines := ((splitNl card.body).map sTrim).filter (fun l => l ≠ [])
  let optA := stripOptLabel 'a'
    (((lines.find? (fun l => startsWithL (sLower l) (str "a)"))).orElse
      (fun _ => lines.get? 0)).getD (str "Option A"))
  let optB := stripOptLabel 'b'
    (((lines.find? (fun l => startsWithL (sLower l) (str "b)"))).orElse
      (fun _ => lines.get? 1)).getD (str "Option B"))
  let inter : WyrInter := ⟨card.id, playerId, now, now + 75000, optA, optB, []⟩
  let room1 :=
    { room with
      currentDraw := Option.none,
      turnTimer := Option.none,
      interaction := some (Interaction.wyr inter) }
  touchActivity (pushLogR room1 now (str "resolve")) now

/-- The receipts spawned on the resolution of a targeting-kind card
(`if (requiresAck(card)) { … }`). -/
def ackList (card : Card) (playerId : Str) (res : Resolution)
    (ackId1 ackId2 : Str) (now : Nat) : List Ack :=
  let meta1 : AckMeta := ⟨card.resolution, res.numberValue,
    res.ruleText, [res.targetPlayerId]⟩
  let meta2 : AckMeta := ⟨card.resolution, res.numberValue,
    res.ruleText, [res.targetPlayerId, res.targetPlayerId2]⟩
  if card.resolution = ResKind.chooseTarget ∨
      card.resolution = ResKind.chooseTargetAndNumber then
    [createAck card playerId res.targetPlayerId meta1 ackId1 now]
  else
    [createAck card playerId res.targetPlayerId meta2 ackId1 now,
     createAck card playerId res.targetPlayerId2 meta2 ackId2 now]

/-- Append the spawned receipts when the card requires them. -/
def attachAcks (room : Room) (card : Card) (playerId : Str)
    (res : Resolution) (ackId1 ackId2 : Str) (now : Nat) : Room :=
  if requiresAck card then
    { room with
      pendingAcks := room.pendingAcks ++ ackList card playerId res ackId1 ackId2 now,
      awaitingAcksForCardId := Option.none }
  else room

/-- The non-interactive success path of `card:resolve`: apply the card
semantics and the drink heuristic, log, clear the draw and timer, spawn
confirmation receipts for targeting kinds, advance the turn, touch
activity. -/
def resolveNormal (room : Room) (card : Card) (playerId : Str)
    (res : Resolution) (now : Nat) (ruleId ackId1 ackId2 : Str) : Room :=
  let room1 := applyCard room card playerId res ruleId
  let room2 := applyDrinkStats room1 card playerId res
  let room3 := pushLogR room2 now (str "resolve")
  let room4 := clearDrawTimer room3
  let room5 := attachAcks room4 card playerId res ackId1 ackId2 now
  touchActivity (nextTurn room5) now

/-- The `card:resolve` handler, including the embedded `startInteractive`
launcher.  `ruleId` is the generated rule id, `ackId1`/`ackId2` the
generated ack ids (used only on the paths that need them). -/
def cardResolve (cat : Catalog) (room : Room) (playerId cardId : Str)
    (res : Resolution) (now : Nat) (ruleId ackId1 ackId2 : Str) :
    Except Err Room :=
  if ¬(isValidRoomCode room.roomCode ∧ isValidPlayerId playerId ∧
      cardId ≠ []) then
    .error .INVALID_INPUT
  else match assertIsTurnPlayer room playerId with
  | some e => .error e
  | Option.none =>
    match room.currentDraw with
    | Option.none => .error .NO_ACTIVE_DRAW
    | some draw =>
      if draw.cardId ≠ cardId then .error .CARD_MISMATCH
      else if draw.drawnByPlayerId ≠ playerId then .error .NOT_DRAWER
      else match catFind cat cardId with
      | Option.none => .error .CARD_NOT_FOUND
      | some card =>
        if (card.resolution = ResKind.chooseTarget ∨
            card.resolution = ResKind.rockPaperScissors) ∧
            res.targetPlayerId = [] then
          .error .MISSING_TARGET
        else if card.resolution = ResKind.chooseTwoTargets ∧
            (res.targetPlayerId = [] ∨ res.targetPlayerId2 = []) then
          .error .MISSING_TARGETS
        else if card.resolution = ResKind.createRuleText ∧
            sTrim res.ruleText = [] then
          .error .MISSING_RULE_TEXT
        else if card.resolution = ResKind.rockPaperScissors then
          let opponentId := res.targetPlayerId
          if ((activePlayers room).find?
              (fun p => p.playerId = opponentId)).isNone then
            .error .INVALID_TARGET
          else if opponentId = playerId then .error .INVALID_TARGET
          else .ok (launchRps room card playerId opponentId now)
        else if card.resolution = ResKind.wouldYouRather then
          .ok (launchWyr room card playerId now)
        else .ok (resolveNormal room card playerId res now ruleId ackId1 ackId2)

/-- The `interaction:rps:choose` handler: record the (overwriting) choice
and resolve eagerly once both choices are present. -/
def rpsChoose (room : Room) (playerId : Str) (choice : RpsChoice)
    (now : Nat) : Except Err Room :=
  if ¬(isValidRoomCode room.roomCode ∧ isValidPlayerId playerId) then
    .error .INVALID_INPUT
  else match room.interaction with
  | some (Interaction.rps inter) =>
    let a := inter.startedByPlayerId
    let b := inter.opponentPlayerId
    if playerId ≠ a ∧ playerId ≠ b then .error .NOT_PARTICIPANT
    else
      let inter2 := { inter with choices := aset inter.choices playerId choice }
      let room1 := { room with interaction := some (Interaction.rps inter2) }
      match alookup inter2.choices a, alookup inter2.choices b with
      | some ca, some cb =>
        let stats :=
          if ca = cb then bumpTaken (bumpTaken room1.drinkStats a 1) b 1
          else if beats ca = cb then bumpTaken room1.drinkStats b 1
          else bumpTaken room1.drinkStats a 1
        let room2 := pushLogR { room1 with drinkStats := stats } now (str "system")
        let room3 := nextTurn { room2 with interaction := Option.none }
        .ok (touchActivity room3 now)
      | _, _ => .ok (touchActivity room1 now)
  | _ => .error .NO_INTERACTION

/-- The `interaction:wyr:vote` handler: idempotent-overwrite vote; resolve
once every active player has voted. -/
def wyrVote (room : Room) (playerId : Str) (v : Vote) (now : Nat) :
    Except Err Room :=
  if ¬(isValidRoomCode room.roomCode ∧ isValidPlayerId playerId) then
    .error .INVALID_INPUT
  else match room.interaction with
  | some (Interaction.wyr inter) =>
    let ap := (activePlayers room).map Player.playerId
    if ¬(playerId ∈ ap) then .error .SPECTATORS_CANNOT_VOTE
    else
      let inter2 := { inter with votes := aset inter.votes playerId v }
      let room1 := { room with interaction := some (Interaction.wyr inter2) }
      let votedCount := ap.countP (fun pid => (alookup inter2.votes pid).isSome)
      let room2 :=
        if votedCount ≥ ap.length then finalizeWouldYouRather room1 now
        else room1
      .ok (touchActivity room2 now)
  | _ => .error .NO_INTERACTION

/-- Set the status of the first ack with the given id to confirmed (JS
mutates the object returned by `find`). -/
def confirmFirst : List Ack → Str → Nat → List Ack
  | [], _, _ => []
  | a :: rest, i, now =>
    if a.ackId = i then
      { a with status := AckStatus.confirmed, confirmedAt := some now } :: rest
    else a :: confirmFirst rest i now

/-- The `ack:confirm` handler. -/
def ackConfirm (room : Room) (playerId ackId : Str) (now : Nat) :
    Except Err Room :=
  if ¬(isValidRoomCode room.roomCode ∧ isValidPlayerId playerId ∧
      ackId ≠ []) then
    .error .INVALID_INPUT
  else match room.pendingAcks.find? (fun a => a.ackId = ackId) with
  | Option.none => .error .ACK_NOT_FOUND
  | some ack =>
    if ack.assignedToPlayerId ≠ playerId then .error .NOT_YOUR_ACK
    else if ack.status = AckStatus.confirmed then .ok room
    else
      let acks := (confirmFirst room.pendingAcks ackId now).filter
        (fun a => a.status ≠ AckStatus.confirmed)
      .ok { room with pendingAcks := acks, lastActivity := now }

/-- The `turn:nudge` handler (log entry and broadcast only). -/
def turnNudge (room : Room) (fromPid toPid : Str) (now : Nat) :
    Except Err Room :=
  if ¬(isValidRoomCode room.roomCode ∧ isValidPlayerId fromPid ∧
      isValidPlayerId toPid) then
    .error .INVALID_INPUT
  else .ok (touchActivity (pushLogR room now (str "nudge")) now)

/-- The `room:updateSettings` handler.  The JS spread-merge
`{...settings, ...patch}` is modelled by passing the merged settings
record. -/
def updateSettings (room : Room) (playerId : Str) (merged : Settings)
    (now : Nat) : Except Err Room :=
  if ¬(isValidRoomCode room.roomCode ∧ isValidPlayerId playerId) then
    .error .INVALID_INPUT
  else if ¬isHost room playerId then .error .NOT_HOST
  else
    let room1 := { room with settings := merged }
    .ok (touchActivity (pushLogR room1 now (str "setting")) now)

/-- The `room:setDeck` handler. -/
def setDeck (cat : Catalog) (room : Room) (playerId : Str)
    (deckOrder : List Str) (now : Nat) : Except Err Room :=
  if ¬(isValidRoomCode room.roomCode ∧ isValidPlayerId playerId) then
    .error .INVALID_INPUT
  else if ¬isHost room playerId then .error .NOT_HOST
  else
    let clean := sanitizeDeckOrder cat deckOrder
    if clean = [] then .error .EMPTY_DECK
    else
      let room1 := { room with
        settings := { room.settings with customDeckOrder := clean },
        drawIndex := 0, discard := [], currentDraw := Option.none,
        turnTimer := Option.none }
      .ok (touchActivity (pushLogR room1 now (str "deck")) now)

/-- The `host:kick` handler.  `callerPid` is the identity the connection
tracker resolves for the calling socket. -/
def hostKick (room : Room) (callerPid targetPlayerId : Str) (now : Nat) :
    Except Err Room :=
  if ¬(isValidRoomCode room.roomCode ∧ isValidPlayerId targetPlayerId) then
    .error .INVALID_INPUT
  else match room.players.find? (fun p => p.seatIndex = (0 : ℤ)) with
  | Option.none => .error .NOT_HOST
  | some hostPlayer =>
    if hostPlayer.playerId ≠ callerPid then .error .NOT_HOST
    else match room.players.find? (fun p => p.playerId = targetPlayerId) with
    | Option.none => .error .PLAYER_NOT_FOUND
    | some _ =>
      if targetPlayerId = callerPid then .error .CANNOT_KICK_SELF
      else
        let room1 := { room with
          players := room.players.filter (fun p => ¬(p.playerId = targetPlayerId)),
          drinkStats := aerase room.drinkStats targetPlayerId }
        .ok (touchActivity (pushLogR room1 now (str "system")) now)

/-- The `admin:kickPlayer` handler (privileged channel; no host/self
checks). -/
def adminKick (room : Room) (targetPlayerId : Str) (now : Nat) :
    Except Err Room :=
  match room.players.find? (fun p => p.playerId = targetPlayerId) with
  | Option.none => .error .PLAYER_NOT_FOUND
  | some _ =>
    let room1 := { room with
      players := room.players.filter (fun p => ¬(p.playerId = targetPlayerId)),
      drinkStats := aerase room.drinkStats targetPlayerId }
    .ok (touchActivity (pushLogR room1 now (str "system")) now)

/-- The `room:join` handler; `newPid` is the generated player id. -/
def roomJoin (room : Room) (newPid name : Str) (spectator : Bool)
    (now : Nat) : Except Err Room :=
  if ¬isValidRoomCode room.roomCode then .error .INVALID_ROOM_CODE
  else if sTrim name = [] then .error .INVALID_NAME
  else if name.length > 20 then .error .INVALID_NAME
  else if isNameTaken room name then .error .NAME_TAKEN
  else
    let trimmedName := sTrim name
    let room1 :=
      if spectator then
        let sp : Player := ⟨newPid, trimmedName, -1, true, PMode.spectator⟩
        { room with spectators := room.spectators ++ [sp] }
      else
        let seatIndex := (activePlayers room).length
        let pl : Player := ⟨newPid, trimmedName, (seatIndex : ℤ), true, PMode.player⟩
        { room with players := room.players ++ [pl] }
    let room2 := { room1 with drinkStats := aset room1.drinkStats newPid ⟨0, 0⟩ }
    .ok (touchActivity (pushLogR room2 now (str "system")) now)

/-- The `player:reconnect` handler (connection flags only; socket ids are
transport-level). -/
def playerReconnect (room : Room) (playerId : Str) (now : Nat) :
    Except Err Room :=
  if ¬isValidRoomCode room.roomCode then .error .INVALID_ROOM_CODE
  else if ¬isValidPlayerId playerId then .error .INVALID_PLAYER_ID
  else if (room.players.find? (fun p => p.playerId = playerId)).isSome then
    let ps := mapFirst (fun p => p.playerId = playerId)
      (fun p => { p with connected := true }) room.players
    .ok (touchActivity (pushLogR { room with players := ps } now (str "system")) now)
  else if (room.spectators.find? (fun s => s.playerId = playerId)).isSome then
    let ss := mapFirst (fun s => s.playerId = playerId)
      (fun s => { s with connected := true }) room.spectators
    .ok (touchActivity (pushLogR { room with spectators := ss } now (str "system")) now)
  else .error .PLAYER_NOT_FOUND

/-- The socket `disconnect` handler.  A host disconnect closes the whole
room (the registry deletes it); for the per-room machine the state is
frozen from that point on. -/
def onDisconnect (room : Room) (playerId : Str) (now : Nat) : Room :=
  match room.players.find? (fun p => p.playerId = playerId) with
  | some player =>
    if player.seatIndex = 0 then room
    else
      let ps := mapFirst (fun p => p.playerId = playerId)
        (fun p => { p with connected := false }) room.players
      { room with players := ps, lastActivity := now }
  | Option.none =>
    match room.spectators.find? (fun s => s.playerId = playerId) with
    | some _ =>
      { room with
        spectators := room.spectators.filter (fun s => ¬(s.playerId = playerId)),
        lastActivity := now }
    | Option.none => room

/-- The turn-timer part of the sweep tick (runs when no interaction has
expired). -/
def sweepTimer (room : Room) (now : Nat) : Room :=
  if ¬room.started ∨ room.paused then room
  else match room.turnTimer with
  | Option.none => room
  | some tt =>
    if ¬tt.enabled then room
    else if now < tt.endsAt then
      match room.currentDraw with
      | some d =>
        if tt.endsAt - now ≤ 15000 then
          let turnKey := d.cardId ++ [':'] ++ d.drawnByPlayerId ++ [':'] ++
            (toString room.turnIndex).data
          if room.afkNudged.map Prod.fst ≠ some turnKey then
            pushLogR { room with afkNudged := some (turnKey, now) } now (str "nudge")
          else room
        else room
      | Option.none => room
    else
      match room.currentDraw with
      | some d =>
        let stats := bumpTaken room.drinkStats d.drawnByPlayerId 1
        let room1 := pushLogR { room with drinkStats := stats } now (str "system")
        nextTurn { room1 with currentDraw := Option.none, turnTimer := Option.none }
      | Option.none => { room with turnTimer := Option.none }

/-- One sweep tick for one room: expired interactions resolve first and
preempt the timer logic for that tick. -/
def sweepRoom (room : Room) (now : Nat) : Room :=
  match room.interaction with
  | some inter =>
    if inter.expiresAt ≤ now then
      match inter with
      | Interaction.rps ri =>
        let a := ri.startedByPlayerId
        let b := ri.opponentPlayerId
        let stats0 := ensureStats (ensureStats room.drinkStats a) b
        let ca := alookup ri.choices a
        let cb := alookup ri.choices b
        let stats1 :=
          if ca.isSome ∧ cb.isNone then bumpTaken stats0 b 1
          else if ca.isNone ∧ cb.isSome then bumpTaken stats0 a 1
          else bumpTaken (bumpTaken stats0 a 1) b 1
        let room1 := pushLogR { room with drinkStats := stats1 } now (str "system")
        nextTurn { room1 with interaction := Option.none }
      | Interaction.wyr _ => finalizeWouldYouRather room now
    else sweepTimer room now
  | Option.none => sweepTimer room now

/-- Inbound events of the per-room state machine.  Each carries the
externally generated data the corresponding handler consumes (timestamps,
random samples, generated ids, resolved caller identity). -/
inductive Event
  | join (pid name : Str) (spectator : Bool) (now : Nat)
  | reconnect (pid : Str) (now : Nat)
  | draw (pid : Str) (u : ℚ) (now : Nat)
  | resolve (pid cardId : Str) (res : Resolution) (ruleId ackId1 ackId2 : Str) (now : Nat)
  | rpsPick (pid : Str) (choice : RpsChoice) (now : Nat)
  | vote (pid : Str) (v : Vote) (now : Nat)
  | ack (pid ackId : Str) (now : Nat)
  | nudge (fromPid toPid : Str) (now : Nat)
  | settings (pid : Str) (merged : Settings) (now : Nat)
  | deck (pid : Str) (order : List Str) (now : Nat)
  | kick (callerPid targetPid : Str) (now : Nat)
  | adminKickEv (targetPid : Str) (now : Nat)
  | adminDeckEv (ids : List Str) (now : Nat)
  | sweep (now : Nat)
  | disconnect (pid : Str) (now : Nat)

/-- Failed requests return before mutating: the room is unchanged. -/
def exceptD (room : Room) : Except Err Room → Room
  | .ok r => r
  | .error _ => room

/-- One step of the per-room machine. -/
def step (cat : Catalog) (room : Room) : Event → Room
  | .join pid name sp now => exceptD room (roomJoin room pid name sp now)
  | .reconnect pid now => exceptD room (playerReconnect room pid now)
  | .draw pid u now => exceptD room (turnDraw cat room pid u now)
  | .resolve pid cardId res ruleId a1 a2 now =>
      exceptD room (cardResolve cat room pid cardId res now ruleId a1 a2)
  | .rpsPick pid c now => exceptD room (rpsChoose room pid c now)
  | .vote pid v now => exceptD room (wyrVote room pid v now)
  | .ack pid ackId now => exceptD room (ackConfirm room pid ackId now)
  | .nudge f t now => exceptD room (turnNudge room f t now)
  | .settings pid merged now => exceptD room (updateSettings room pid merged now)
  | .deck pid order now => exceptD room (setDeck cat room pid order now)
  | .kick c t now => exceptD room (hostKick room c t now)
  | .adminKickEv t now => exceptD room (adminKick room t now)
  | .adminDeckEv ids now =>
      -- admin:addCardsToRoom extends the custom order; the catalog
      -- extension is not modelled (drawing an unknown id fails with
      -- CARD_NOT_FOUND), and arbitrary id lists are admitted, which only
      -- widens the reachable state space.
      if ids = [] then room
      else
        let base := if room.settings.customDeckOrder = [] then room.deckOrder
                    else room.settings.customDeckOrder
        let room1 := { room with settings :=
          { room.settings with customDeckOrder := base ++ ids } }
        pushLogR room1 now (str "deck")
  | .sweep now => sweepRoom room now
  | .disconnect pid now => onDisconnect room pid now

/-- The room literal built by `room:create` (the creator is the host at
seat 0; the game starts immediately). -/
def initRoom (cat : Catalog) (roomCode hostPid hostName : Str)
    (now : Nat) : Room :=
  pushLogR
    { roomCode := roomCode,
      deckOrder := cat.map Card.id,
      drawIndex := 0, discard := [],
      players := [⟨hostPid, sTrim hostName, 0, true, PMode.player⟩],
      spectators := [], turnIndex := 0, started := true, paused := false,
      currentDraw := Option.none, turnTimer := Option.none,
      interaction := Option.none,
      activeEffects := ⟨[], [], [], Option.none⟩,
      log := [],
      settings := ⟨false, true, []⟩,
      drinkStats := [(hostPid, ⟨0, 0⟩)],
      pendingAcks := [], awaitingAcksForCardId := Option.none,
      createdAt := now, lastActivity := now, afkNudged := Option.none }
    now (str "system")

/-- Rooms reachable by a sequence of events from creation. -/
def runEvents (cat : Catalog) (roomCode hostPid hostName : Str)
    (now : Nat) (es : List Event) : Room :=
  es.foldl (step cat) (initRoom cat roomCode hostPid hostName now)

/-- The mutual-exclusion invariant of claim C4: a room never has both a
pending draw and an active interaction. -/
def mutexDraw (room : Room) : Prop :=
  room.currentDraw = Option.none ∨ room.interaction = Option.none

/-- A player's taken tally as read back from the stats object (absent
players read as zero, as in the engine's lookup-with-default). -/
def takenOf (room : Room) (pid : Str) : ℚ :=
  ((alookup room.drinkStats pid).getD ⟨0, 0⟩).taken

/-- A player's given tally. -/
def givenOf (room : Room) (pid : Str) : ℚ :=
  ((alookup room.drinkStats pid).getD ⟨0, 0⟩).given

/-- The ids of the active players of a room. -/
def activeIds (room : Room) : List Str :=
  (activePlayers room).map Player.playerId

/-- The active players who voted the given way in a group vote. -/
def votersFor (room : Room) (inter : WyrInter) (v : Vote) : List Str :=
  (activeIds room).filter (fun pid => alookup inter.votes pid = some v)

/-- Written from the spec sentence of claim C5: the selection weight of a
candidate is the per-type base weight times a 0.25 recency factor when the
exact id is among the last 8 discards, times a forfeit-pressure factor
(0.5 at ≥4 recent forfeits, 0.7 at ≥3), times a 0.65 type-clustering
factor when the candidate's type occurs ≥2 times among the last 8, floored
at 0.05. -/
def specWeight (cat : Catalog) (room : Room) (c : Card) : ℚ :=
  let recent := lastN room.discard 8
  let recencyFactor : ℚ := if c.id ∈ recent then 1/4 else 1
  let forfeitFactor : ℚ :=
    if c.type = CardType.forfeit then
      (if typeCount cat recent CardType.forfeit ≥ 4 then 1/2
       else if typeCount cat recent CardType.forfeit ≥ 3 then 7/10
       else 1)
    else 1
  let clusterFactor : ℚ :=
    if typeCount cat recent c.type ≥ 2 then 13/20 else 1
  max (1/20)
    (baseWeight room.settings.safeMode c.type * recencyFactor *
      forfeitFactor * clusterFactor)

/-- The candidate cards of a draw (deck order resolved against the
catalog). -/
def specCandidates (cat : Catalog) (room : Room) : List Card :=
  (effOrder room).filterMap (catFind cat)

/-- The per-candidate weight list as described by the spec for C5. -/
def specWeightedList (cat : Catalog) (room : Room) : List (Str × ℚ) :=
  (specCandidates cat room).map (fun c => (c.id, specWeight cat room c))

/-- Written from the claim sentence of C6 (taken literally): 30s base,
+15s for the multi-effect categories, +60s for event cards, plus the
kind-specific additions, clamped to [20, 90]. -/
def claimTimerSeconds (card : Card) : Nat :=
  let s := 30 + (if card.type ∈ [CardType.rule, .role, .curse, .joker] then 15 else 0)
    + (if card.type = CardType.event then 60 else 0)
  max 20 (min 90 (s + kindBonus card.resolution))

/-- The amended timer description: identical to the claim except that an
event card raises the base to 60s (a +30s increase), matching the code. -/
def amendedTimer (card : Card) : TimerSpec :=
  if card.resolution = ResKind.createRuleText then
    ⟨false, 0, some (str "Custom rule entry")⟩
  else if longRoundHints.any
      (fun h => containsSub (sLower (card.title ++ [' '] ++ card.body)) h) then
    ⟨false, 0, some (str "Long round / discussion card")⟩
  else
    let s := 30 + (if card.type ∈ [CardType.rule, .role, .curse, .joker] then 15 else 0)
      + (if card.type = CardType.event then 30 else 0)
    ⟨true, max 20 (min 90 (s + kindBonus card.resolution)), Option.none⟩

/-! Concrete fixtures used by witnesses and counterexamples.  Player ids
are 6 characters from the nanoid alphabet and the room code is 6 upper-case
characters, so the shape validators accept them. -/

/-- A plain forfeit card with no required input. -/
def cardPlain : Card := ⟨str "c1", CardType.forfeit, str "T", str "B", ResKind.none⟩

/-- A two-target card. -/
def cardTwo : Card :=
  ⟨str "c2", CardType.forfeit, str "Pick Two", str "Point at them", ResKind.chooseTwoTargets⟩

/-- An event card with no required input (its text matches no discussion
hint). -/
def cardEvent : Card := ⟨str "c3", CardType.event, str "Storm", str "Everyone joins", ResKind.none⟩

/-- A duel-launching card. -/
def cardDuel : Card := ⟨str "c4", CardType.joker, str "Duel", str "Challenge someone", ResKind.rockPaperScissors⟩

/-- A group-vote-launching card. -/
def cardVote : Card := ⟨str "c5", CardType.joker, str "Either Or", str "a) Tea\nb) Coffee", ResKind.wouldYouRather⟩

def catPlain : Catalog := [cardPlain]
def catTwo : Catalog := [cardTwo]
def catInter : Catalog := [cardDuel, cardVote]

/-- Events for the C3 counterexample: two players join, the host kicks the
seat-1 player, switches to sequential drawing, draws and resolves.  The
surviving seats are 0 and 2 while `nextTurn` computes indices modulo 2, so
`turnIndex` lands on the vacated seat 1. -/
def evC3 : List Event :=
  [Event.join (str "playr2") (str "Bob") false 0,
   Event.join (str "playr3") (str "Cara") false 0,
   Event.kick (str "hostpl") (str "playr2") 0,
   Event.settings (str "hostpl") ⟨false, false, []⟩ 0,
   Event.draw (str "hostpl") 0 0,
   Event.resolve (str "hostpl") (str "c1") {} (str "r1") (str "a1xxxx") (str "a2xxxx") 0]

/-- The reachable room of the C3 counterexample. -/
def roomC3 : Room := runEvents catPlain (str "ROOM01") (str "hostpl") (str "Al") 0 evC3

/-- Room for the C1 fixture: host has drawn the two-target card. -/
def roomC1 : Room :=
  { initRoom catTwo (str "ROOM01") (str "hostpl") (str "Al") 0 with
    players := [⟨str "hostpl", str "Al", 0, true, PMode.player⟩,
                ⟨str "playr2", str "Bob", 1, true, PMode.player⟩],
    currentDraw := some ⟨str "c2", str "hostpl"⟩ }

/-- The C1 resolution payload naming the same player twice. -/
def resC1 : Resolution := { targetPlayerId := str "playr2", targetPlayerId2 := str "playr2" }

/-- A pending receipt assigned to the second player. -/
def ack0 : Ack :=
  createAck cardTwo (str "hostpl") (str "playr2")
    ⟨ResKind.chooseTwoTargets, 0, [], [str "playr2"]⟩ (str "ak1234") 3

/-- Room for the C2 fixture: one pending ack. -/
def roomC2 : Room :=
  { initRoom catTwo (str "ROOM01") (str "hostpl") (str "Al") 0 with
    players := [⟨str "hostpl", str "Al", 0, true, PMode.player⟩,
                ⟨str "playr2", str "Bob", 1, true, PMode.player⟩],
    pendingAcks := [ack0] }

/-- Five active players, used by the C7 witness. -/
def playersFive : List Player :=
  [⟨str "hostpl", str "Al", 0, true, PMode.player⟩,
   ⟨str "playr2", str "Bob", 1, true, PMode.player⟩,
   ⟨str "playr3", str "Cara", 2, true, PMode.player⟩,
   ⟨str "playr4", str "Dan", 3, true, PMode.player⟩,
   ⟨str "playr5", str "Eve", 4, true, PMode.player⟩]

/-- A group vote with three A votes and two B votes. -/
def wyr32 : WyrInter :=
  ⟨str "c5", str "hostpl", 0, 75000, str "Tea", str "Coffee",
   [(str "hostpl", Vote.A), (str "playr2", Vote.A), (str "playr3", Vote.A),
    (str "playr4", Vote.B), (str "playr5", Vote.B)]⟩

/-- Room for the C7 witness (3 vs 2 group vote in progress). -/
def roomC7 : Room :=
  { initRoom catInter (str "ROOM01") (str "hostpl") (str "Al") 0 with
    players := playersFive,
    interaction := some (Interaction.wyr wyr32) }

/-- A duel in which the challenger has already picked rock. -/
def rpsA : RpsInter :=
  ⟨str "c4", str "hostpl", str "playr2", 0, 60000, [(str "hostpl", RpsChoice.rock)]⟩

/-- Room for the C8 witness (duel waiting on the opponent). -/
def roomC8 : Room :=
  { initRoom catInter (str "ROOM01") (str "hostpl") (str "Al") 0 with
    players := [⟨str "hostpl", str "Al", 0, true, PMode.player⟩,
                ⟨str "playr2", str "Bob", 1, true, PMode.player⟩],
    interaction := some (Interaction.rps rpsA) }

/-- Room for the C9 witness: enabled timer expired at t=10, card drawn. -/
def roomC9 : Room :=
  { initRoom catPlain (str "ROOM01") (str "hostpl") (str "Al") 0 with
    players := [⟨str "hostpl", str "Al", 0, true, PMode.player⟩,
                ⟨str "playr2", str "Bob", 1, true, PMode.player⟩],
    currentDraw := some ⟨str "c1", str "hostpl"⟩,
    turnTimer := some ⟨true, 30, 10, Option.none⟩ }

/-- Room for the C4 draw-rejection witness: an interaction is active and no
card is drawn. -/
def roomC4a : Room :=
  { initRoom catInter (str "ROOM01") (str "hostpl") (str "Al") 0 with
    players := [⟨str "hostpl", str "Al", 0, true, PMode.player⟩,
                ⟨str "playr2", str "Bob", 1, true, PMode.player⟩],
    interaction := some (Interaction.rps rpsA) }

/-- Room for the C4 launch witnesses: the host has drawn the duel card. -/
def roomC4b : Room :=
  { initRoom catInter (str "ROOM01") (str "hostpl") (str "Al") 0 with
    players := [⟨str "hostpl", str "Al", 0, true, PMode.player⟩,
                ⟨str "playr2", str "Bob", 1, true, PMode.player⟩],
    currentDraw := some ⟨str "c4", str "hostpl"⟩ }

/-- Room for the C4 group-vote launch witness. -/
def roomC4c : Room :=
  { roomC4b with currentDraw := some ⟨str "c5", str "hostpl"⟩ }

/-- The concrete duel-launch result. -/
def roomC4bAfter : Room :=
  exceptD roomC4b (cardResolve catInter roomC4b (str "hostpl") (str "c4")
    { targetPlayerId := str "playr2" } 5 (str "r1") (str "a1xxxx") (str "a2xxxx"))

/-- The concrete vote-launch result. -/
def roomC4cAfter : Room :=
  exceptD roomC4c (cardResolve catInter roomC4c (str "hostpl") (str "c5")
    {} 5 (str "r1") (str "a1xxxx") (str "a2xxxx"))

/-! Field lemmas for the room-composition helpers. -/

theorem touchActivity_cd (room : Room) (now : Nat) :
    (touchActivity room now).currentDraw = room.currentDraw := rfl
theorem touchActivity_int (room : Room) (now : Nat) :
    (touchActivity room now).interaction = room.interaction := rfl
theorem touchActivity_tt (room : Room) (now : Nat) :
    (touchActivity room now).turnTimer = room.turnTimer := rfl
theorem touchActivity_stats (room : Room) (now : Nat) :
    (touchActivity room now).drinkStats = room.drinkStats := rfl
theorem touchActivity_acks (room : Room) (now : Nat) :
    (touchActivity room now).pendingAcks = room.pendingAcks := rfl
theorem touchActivity_ti (room : Room) (now : Nat) :
    (touchActivity room now).turnIndex = room.turnIndex := rfl
theorem touchActivity_players (room : Room) (now : Nat) :
    (touchActivity room now).players = room.players := rfl

theorem pushLogR_cd (room : Room) (now : Nat) (ty : Str) :
    (pushLogR room now ty).currentDraw = room.currentDraw := rfl
theorem pushLogR_int (room : Room) (now : Nat) (ty : Str) :
    (pushLogR room now ty).interaction = room.interaction := rfl
theorem pushLogR_tt (room : Room) (now : Nat) (ty : Str) :
    (pushLogR room now ty).turnTimer = room.turnTimer := rfl
theorem pushLogR_stats (room : Room) (now : Nat) (ty : Str) :
    (pushLogR room now ty).drinkStats = room.drinkStats := rfl
theorem pushLogR_acks (room : Room) (now : Nat) (ty : Str) :
    (pushLogR room now ty).pendingAcks = room.pendingAcks := rfl
theorem pushLogR_ti (room : Room) (now : Nat) (ty : Str) :
    (pushLogR room now ty).turnIndex = room.turnIndex := rfl
theorem pushLogR_players (room : Room) (now : Nat) (ty : Str) :
    (pushLogR room now ty).players = room.players := rfl

theorem clearDrawTimer_cd (room : Room) :
    (clearDrawTimer room).currentDraw = Option.none := rfl
theorem clearDrawTimer_tt (room : Room) :
    (clearDrawTimer room).turnTimer = Option.none := rfl
theorem clearDrawTimer_int (room : Room) :
    (clearDrawTimer room).interaction = room.interaction := rfl
theorem clearDrawTimer_acks (room : Room) :
    (clearDrawTimer room).pendingAcks = room.pendingAcks := rfl
theorem clearDrawTimer_stats (room : Room) :
    (clearDrawTimer room).drinkStats = room.drinkStats := rfl
theorem clearDrawTimer_players (room : Room) :
    (clearDrawTimer room).players = room.players := rfl

theorem nextTurn_cd (room : Room) :
    (nextTurn room).currentDraw = room.currentDraw := by
  simp only [nextTurn]; split <;> rfl
theorem nextTurn_int (room : Room) :
    (nextTurn room).interaction = room.interaction := by
  simp only [nextTurn]; split <;> rfl
theorem nextTurn_tt (room : Room) :
    (nextTurn room).turnTimer = room.turnTimer := by
  simp only [nextTurn]; split <;> rfl
theorem nextTurn_stats (room : Room) :
    (nextTurn room).drinkStats = room.drinkStats := by
  simp only [nextTurn]; split <;> rfl
theorem nextTurn_acks (room : Room) :
    (nextTurn room).pendingAcks = room.pendingAcks := by
  simp only [nextTurn]; split <;> rfl
theorem nextTurn_players (room : Room) :
    (nextTurn room).players = room.players := by
  simp only [nextTurn]; split <;> rfl
theorem nextTurn_ti (room : Room) :
    (nextTurn room).turnIndex =
      if (activePlayers room).length = 0 then 0
      else (room.turnIndex + 1) % (activePlayers room).length := by
  simp only [nextTurn]; split <;> simp_all

theorem attachAcks_cd (room : Room) (card : Card) (p : Str) (res : Resolution)
    (a1 a2 : Str) (now : Nat) :
    (attachAcks room card p res a1 a2 now).currentDraw = room.currentDraw := by
  simp only [attachAcks]; split <;> rfl
theorem attachAcks_int (room : Room) (card : Card) (p : Str) (res : Resolution)
    (a1 a2 : Str) (now : Nat) :
    (attachAcks room card p res a1 a2 now).interaction = room.interaction := by
  simp only [attachAcks]; split <;> rfl
theorem attachAcks_tt (room : Room) (card : Card) (p : Str) (res : Resolution)
    (a1 a2 : Str) (now : Nat) :
    (attachAcks room card p res a1 a2 now).turnTimer = room.turnTimer := by
  simp only [attachAcks]; split <;> rfl
theorem attachAcks_players (room : Room) (card : Card) (p : Str) (res : Resolution)
    (a1 a2 : Str) (now : Nat) :
    (attachAcks room card p res a1 a2 now).players = room.players := by
  simp only [attachAcks]; split <;> rfl

theorem applyCard_eq (room : Room) (card : Card) (p : Str) (res : Resolution)
    (rid : Str) :
    ∃ eff, applyCard room card p res rid = { room with activeEffects := eff } := by
  unfold applyCard
  dsimp only
  cases halk : alookup room.activeEffects.cursesByPlayerId res.targetPlayerId <;>
    dsimp only <;> split_ifs <;> exact ⟨_, rfl⟩

theorem applyDrinkStats_eq (room : Room) (card : Card) (p : Str)
    (res : Resolution) :
    ∃ stats, applyDrinkStats room card p res = { room with drinkStats := stats } := by
  unfold applyDrinkStats
  dsimp only
  cases hfn : firstNumber (sLower (card.title ++ [' '] ++ card.body)) <;>
    dsimp only <;> split_ifs <;> exact ⟨_, rfl⟩
theorem launchRps_shape (room : Room) (card : Card) (p o : Str) (now : Nat) :
    (launchRps room card p o now).currentDraw = Option.none ∧
    (launchRps room card p o now).turnTimer = Option.none ∧
    (launchRps room card p o now).interaction =
      some (Interaction.rps ⟨card.id, p, o, now, now + 60000, []⟩) :=
  ⟨rfl, rfl, rfl⟩

theorem launchWyr_shape (room : Room) (card : Card) (p : Str) (now : Nat) :
    (launchWyr room card p now).currentDraw = Option.none ∧
    (launchWyr room card p now).turnTimer = Option.none ∧
    ∃ i : WyrInter, (launchWyr room card p now).interaction =
      some (Interaction.wyr i) ∧ i.expiresAt = now + 75000 := by
  refine ⟨rfl, rfl, ⟨_, rfl, rfl⟩⟩

theorem resolveNormal_cd (room : Room) (card : Card) (p : Str) (res : Resolution)
    (now : Nat) (rid a1 a2 : Str) :
    (resolveNormal room card p res now rid a1 a2).currentDraw = Option.none := by
  simp only [resolveNormal, touchActivity_cd, nextTurn_cd, attachAcks_cd,
    clearDrawTimer_cd]

theorem resolveNormal_tt (room : Room) (card : Card) (p : Str) (res : Resolution)
    (now : Nat) (rid a1 a2 : Str) :
    (resolveNormal room card p res now rid a1 a2).turnTimer = Option.none := by
  simp only [resolveNormal, touchActivity_tt, nextTurn_tt, attachAcks_tt,
    clearDrawTimer_tt]

theorem resolveNormal_int (room : Room) (card : Card) (p : Str) (res : Resolution)
    (now : Nat) (rid a1 a2 : Str) :
    (resolveNormal room card p res now rid a1 a2).interaction = room.interaction := by
  obtain ⟨eff, h1⟩ := applyCard_eq room card p res rid
  obtain ⟨stats, h2⟩ := applyDrinkStats_eq { room with activeEffects := eff } card p res
  simp only [resolveNormal, touchActivity_int, nextTurn_int, attachAcks_int,
    clearDrawTimer_int, pushLogR_int, h1, h2]

theorem applyDraw_int (room : Room) (cardId playerId : Str) (card : Card)
    (now : Nat) : (applyDraw room cardId playerId card now).interaction =
      room.interaction := rfl

theorem applyDraw_cd (room : Room) (cardId playerId : Str) (card : Card)
    (now : Nat) : (applyDraw room cardId playerId card now).currentDraw =
      some ⟨cardId, playerId⟩ := rfl

/-! Mutual-exclusion preservation of `currentDraw`/`interaction` through
every handler (claim C4). -/

theorem finalize_cd (room : Room) (now : Nat) :
    (finalizeWouldYouRather room now).currentDraw = room.currentDraw := by
  unfold finalizeWouldYouRather
  dsimp only
  split
  · split_ifs <;> simp only [nextTurn_cd, pushLogR_cd]
  · rfl

theorem exceptD_pres {room : Room} {e : Except Err Room} {P : Room → Prop}
    (h0 : P room) (hok : ∀ r2, e = .ok r2 → P r2) : P (exceptD room e) := by
  cases e with
  | error err => exact h0
  | ok r => exact hok r rfl

theorem roomJoin_mutex {room : Room} {pid name : Str} {sp : Bool} {now : Nat}
    {r2 : Room} (h : roomJoin room pid name sp now = .ok r2)
    (hm : mutexDraw room) : mutexDraw r2 := by
  unfold roomJoin at h
  dsimp only at h
  repeat' split at h
  all_goals first
    | exact Except.noConfusion h
    | (injection h with h2; subst h2;
       simpa only [mutexDraw, touchActivity_cd, touchActivity_int,
         pushLogR_cd, pushLogR_int] using hm)

theorem playerReconnect_mutex {room : Room} {pid : Str} {now : Nat} {r2 : Room}
    (h : playerReconnect room pid now = .ok r2) (hm : mutexDraw room) :
    mutexDraw r2 := by
  unfold playerReconnect at h
  dsimp only at h
  repeat' split at h
  all_goals first
    | exact Except.noConfusion h
    | (injection h with h2; subst h2;
       simpa only [mutexDraw, touchActivity_cd, touchActivity_int,
         pushLogR_cd, pushLogR_int] using hm)

theorem turnDraw_mutex {cat : Catalog} {room : Room} {pid : Str} {u : ℚ}
    {now : Nat} {r2 : Room} (h : turnDraw cat room pid u now = .ok r2) :
    mutexDraw r2 := by
  unfold turnDraw at h
  dsimp only at h
  repeat' split at h
  all_goals first
    | exact Except.noConfusion h
    | (injection h with h2; subst h2; right; rw [applyDraw_int]; simp_all)

theorem cardResolve_mutex {cat : Catalog} {room : Room} {pid cid : Str}
    {res : Resolution} {now : Nat} {rid a1 a2 : Str} {r2 : Room}
    (h : cardResolve cat room pid cid res now rid a1 a2 = .ok r2) :
    mutexDraw r2 := by
  unfold cardResolve at h
  dsimp only at h
  repeat' split at h
  all_goals first
    | exact Except.noConfusion h
    | (injection h with h2; subst h2;
       exact Or.inl (by simp only [(launchRps_shape _ _ _ _ _).1,
         (launchWyr_shape _ _ _ _).1, resolveNormal_cd]))

theorem rpsChoose_mutex {room : Room} {pid : Str} {choice : RpsChoice}
    {now : Nat} {r2 : Room} (h : rpsChoose room pid choice now = .ok r2)
    (hm : mutexDraw room) : mutexDraw r2 := by
  unfold rpsChoose at h
  dsimp only at h
  repeat' split at h
  all_goals first
    | exact Except.noConfusion h
    | (injection h with h2; subst h2; left;
       simp only [touchActivity_cd, nextTurn_cd, pushLogR_cd]
       rcases hm with hcd | hint
       · exact hcd
       · simp_all)

theorem wyrVote_mutex {room : Room} {pid : Str} {v : Vote} {now : Nat}
    {r2 : Room} (h : wyrVote room pid v now = .ok r2) (hm : mutexDraw room) :
    mutexDraw r2 := by
  unfold wyrVote at h
  dsimp only at h
  repeat' split at h
  all_goals first
    | exact Except.noConfusion h
    | (injection h with h2; subst h2; left;
       simp only [touchActivity_cd, finalize_cd]
       rcases hm with hcd | hint
       · exact hcd
       · simp_all)

theorem ackConfirm_mutex {room : Room} {pid ackId : Str} {now : Nat}
    {r2 : Room} (h : ackConfirm room pid ackId now = .ok r2)
    (hm : mutexDraw room) : mutexDraw r2 := by
  unfold ackConfirm at h
  try dsimp only at h
  repeat' split at h
  all_goals first
    | exact Except.noConfusion h
    | (injection h with h2; subst h2; simpa only [mutexDraw] using hm)

theorem turnNudge_mutex {room : Room} {f t : Str} {now : Nat} {r2 : Room}
    (h : turnNudge room f t now = .ok r2) (hm : mutexDraw room) :
    mutexDraw r2 := by
  unfold turnNudge at h
  try dsimp only at h
  repeat' split at h
  all_goals first
    | exact Except.noConfusion h
    | (injection h with h2; subst h2;
       simpa only [mutexDraw, touchActivity_cd, touchActivity_int,
         pushLogR_cd, pushLogR_int] using hm)

theorem updateSettings_mutex {room : Room} {pid : Str} {s : Settings}
    {now : Nat} {r2 : Room} (h : updateSettings room pid s now = .ok r2)
    (hm : mutexDraw room) : mutexDraw r2 := by
  unfold updateSettings at h
  dsimp only at h
  repeat' split at h
  all_goals first
    | exact Except.noConfusion h
    | (injection h with h2; subst h2;
       simpa only [mutexDraw, touchActivity_cd, touchActivity_int,
         pushLogR_cd, pushLogR_int] using hm)

theorem setDeck_mutex {cat : Catalog} {room : Room} {pid : Str}
    {order : List Str} {now : Nat} {r2 : Room}
    (h : setDeck cat room pid order now = .ok r2) : mutexDraw r2 := by
  unfold setDeck at h
  dsimp only at h
  repeat' split at h
  all_goals first
    | exact Except.noConfusion h
    | (injection h with h2; subst h2; left;
       simp only [touchActivity_cd, pushLogR_cd])

theorem hostKick_mutex {room : Room} {c t : Str} {now : Nat} {r2 : Room}
    (h : hostKick room c t now = .ok r2) (hm : mutexDraw room) :
    mutexDraw r2 := by
  unfold hostKick at h
  dsimp only at h
  repeat' split at h
  all_goals first
    | exact Except.noConfusion h
    | (injection h with h2; subst h2;
       simpa only [mutexDraw, touchActivity_cd, touchActivity_int,
         pushLogR_cd, pushLogR_int] using hm)

theorem adminKick_mutex {room : Room} {t : Str} {now : Nat} {r2 : Room}
    (h : adminKick room t now = .ok r2) (hm : mutexDraw room) :
    mutexDraw r2 := by
  unfold adminKick at h
  dsimp only at h
  repeat' split at h
  all_goals first
    | exact Except.noConfusion h
    | (injection h with h2; subst h2;
       simpa only [mutexDraw, touchActivity_cd, touchActivity_int,
         pushLogR_cd, pushLogR_int] using hm)

theorem onDisconnect_mutex {room : Room} {pid : Str} {now : Nat}
    (hm : mutexDraw room) : mutexDraw (onDisconnect room pid now) := by
  unfold onDisconnect
  dsimp only
  repeat' split
  all_goals simpa only [mutexDraw] using hm

theorem sweepRoom_mutex {room : Room} {now : Nat} (hm : mutexDraw room) :
    mutexDraw (sweepRoom room now) := by
  unfold sweepRoom sweepTimer
  dsimp only
  repeat' split
  all_goals
    (simp only [mutexDraw, nextTurn_cd, nextTurn_int, pushLogR_cd,
       pushLogR_int, finalize_cd]
     try (rcases hm with hcd | hint <;> simp_all))

theorem step_mutex (cat : Catalog) (room : Room) (e : Event)
    (hm : mutexDraw room) : mutexDraw (step cat room e) := by
  cases e with
  | join pid name sp now =>
    exact exceptD_pres hm (fun r2 hr => roomJoin_mutex hr hm)
  | reconnect pid now =>
    exact exceptD_pres hm (fun r2 hr => playerReconnect_mutex hr hm)
  | draw pid u now =>
    exact exceptD_pres hm (fun r2 hr => turnDraw_mutex hr)
  | resolve pid cid res rid a1 a2 now =>
    exact exceptD_pres hm (fun r2 hr => cardResolve_mutex hr)
  | rpsPick pid c now =>
    exact exceptD_pres hm (fun r2 hr => rpsChoose_mutex hr hm)
  | vote pid v now =>
    exact exceptD_pres hm (fun r2 hr => wyrVote_mutex hr hm)
  | ack pid ackId now =>
    exact exceptD_pres hm (fun r2 hr => ackConfirm_mutex hr hm)
  | nudge f t now =>
    exact exceptD_pres hm (fun r2 hr => turnNudge_mutex hr hm)
  | settings pid s now =>
    exact exceptD_pres hm (fun r2 hr => updateSettings_mutex hr hm)
  | deck pid order now =>
    exact exceptD_pres hm (fun r2 hr => setDeck_mutex hr)
  | kick c t now =>
    exact exceptD_pres hm (fun r2 hr => hostKick_mutex hr hm)
  | adminKickEv t now =>
    exact exceptD_pres hm (fun r2 hr => adminKick_mutex hr hm)
  | adminDeckEv ids now =>
    dsimp only [step]
    split
    · exact hm
    · simpa only [mutexDraw, pushLogR_cd, pushLogR_int] using hm
  | sweep now => exact sweepRoom_mutex hm
  | disconnect pid now => exact onDisconnect_mutex hm

theorem runEvents_mutex (cat : Catalog) (code hpid hname : Str) (now0 : Nat)
    (es : List Event) : mutexDraw (runEvents cat code hpid hname now0 es) := by
  have hinit : mutexDraw (initRoom cat code hpid hname now0) := Or.inl rfl
  unfold runEvents
  generalize initRoom cat code hpid hname now0 = room at hinit ⊢
  induction es generalizing room with
  | nil => exact hinit
  | cons e rest ih => exact ih _ (step_mutex cat room e hinit)

/-! Association-list and tally lemmas. -/

theorem alookup_cons {α : Type} (k0 : Str) (v0 : α) (rest : List (Str × α))
    (q : Str) :
    alookup ((k0, v0) :: rest) q = if k0 = q then some v0 else alookup rest q := by
  by_cases h : k0 = q <;> simp [alookup, List.find?_cons, h]

theorem alookup_aset {α : Type} (m : List (Str × α)) (k : Str) (v : α) (q : Str) :
    alookup (aset m k v) q = if q = k then some v else alookup m q := by
  induction m with
  | nil =>
    rw [show aset ([] : List (Str × α)) k v = [(k, v)] from rfl, alookup_cons]
    by_cases h : q = k
    · subst h; simp
    · have h2 : ¬(k = q) := fun hh => h hh.symm
      simp [h, h2, alookup]
  | cons e rest ih =>
    obtain ⟨k0, v0⟩ := e
    simp only [aset]
    by_cases h0 : k0 = k
    · rw [if_pos h0]
      subst h0
      rw [alookup_cons, alookup_cons]
      by_cases h : k0 = q
      · subst h; simp
      · have h2 : ¬(q = k0) := fun hh => h hh.symm
        simp [h, h2]
    · rw [if_neg h0, alookup_cons, alookup_cons, ih]
      by_cases h : k0 = q
      · have h2 : ¬(q = k) := fun hh => h0 (h.trans hh)
        simp [h, h2]
      · simp [h]

theorem takenD_bumpTaken (m : List (Str × DrinkStat)) (pid q : Str) (n : ℚ) :
    ((alookup (bumpTaken m pid n) q).getD ⟨0, 0⟩).taken =
      (if q = pid then ((alookup m q).getD ⟨0, 0⟩).taken + n
       else ((alookup m q).getD ⟨0, 0⟩).taken) := by
  unfold bumpTaken
  rw [alookup_aset]
  split_ifs with h
  · subst h; rfl
  · rfl

theorem takenD_ensure (m : List (Str × DrinkStat)) (pid q : Str) :
    ((alookup (ensureStats m pid) q).getD ⟨0, 0⟩).taken =
      ((alookup m q).getD ⟨0, 0⟩).taken := by
  unfold ensureStats
  split
  · rfl
  · rename_i hnone
    rw [alookup_aset]
    split_ifs with h
    · subst h
      rcases halk : alookup m q with _ | v
      · rfl
      · rw [halk] at hnone; simp at hnone
    · rfl

theorem takenD_foldBump (l : List Str) (m : List (Str × DrinkStat)) (q : Str) :
    ((alookup (l.foldl (fun acc pid => bumpTaken acc pid 1) m) q).getD ⟨0, 0⟩).taken =
      ((alookup m q).getD ⟨0, 0⟩).taken + (l.countP (fun x => x = q) : ℚ) := by
  induction l generalizing m with
  | nil => simp
  | cons a l ih =>
    rw [List.foldl_cons, ih, takenD_bumpTaken, List.countP_cons]
    by_cases h : q = a
    · have h2 : a = q := h.symm
      rw [if_pos h]
      simp [h2]
      ring
    · have h2 : ¬(a = q) := fun hh => h hh.symm
      rw [if_neg h]
      simp [h2]

theorem countP_eq_zero_of_not_mem {l : List Str} {q : Str} (h : q ∉ l) :
    l.countP (fun x => x = q) = 0 := by
  induction l with
  | nil => rfl
  | cons a l ih =>
    rw [List.countP_cons]
    have ha : ¬(a = q) := fun hh => h (hh ▸ List.mem_cons_self a l)
    have hl : q ∉ l := fun hh => h (List.mem_cons_of_mem a hh)
    simp [ha, ih hl]

theorem countP_eq_one_of_nodup_mem {l : List Str} {q : Str} (hn : l.Nodup)
    (hm : q ∈ l) : l.countP (fun x => x = q) = 1 := by
  induction l with
  | nil => cases hm
  | cons a l ih =>
    rw [List.countP_cons]
    rcases List.mem_cons.mp hm with h | h
    · subst h
      have hnotin : q ∉ l := (List.nodup_cons.mp hn).1
      simp [countP_eq_zero_of_not_mem hnotin]
    · have hne : ¬(a = q) := fun hh => (List.nodup_cons.mp hn).1 (hh ▸ h)
      simp [ih (List.nodup_cons.mp hn).2 h, hne]

/-! More field lemmas and the sweep no-op lemma. -/

theorem touchActivity_settings (room : Room) (now : Nat) :
    (touchActivity room now).settings = room.settings := rfl
theorem touchActivity_drawIndex (room : Room) (now : Nat) :
    (touchActivity room now).drawIndex = room.drawIndex := rfl
theorem touchActivity_discard (room : Room) (now : Nat) :
    (touchActivity room now).discard = room.discard := rfl
theorem touchActivity_spectators (room : Room) (now : Nat) :
    (touchActivity room now).spectators = room.spectators := rfl
theorem touchActivity_effects (room : Room) (now : Nat) :
    (touchActivity room now).activeEffects = room.activeEffects := rfl
theorem touchActivity_log (room : Room) (now : Nat) :
    (touchActivity room now).log = room.log := rfl
theorem touchActivity_started (room : Room) (now : Nat) :
    (touchActivity room now).started = room.started := rfl
theorem touchActivity_paused (room : Room) (now : Nat) :
    (touchActivity room now).paused = room.paused := rfl

theorem pushLogR_settings (room : Room) (now : Nat) (ty : Str) :
    (pushLogR room now ty).settings = room.settings := rfl
theorem pushLogR_drawIndex (room : Room) (now : Nat) (ty : Str) :
    (pushLogR room now ty).drawIndex = room.drawIndex := rfl
theorem pushLogR_discard (room : Room) (now : Nat) (ty : Str) :
    (pushLogR room now ty).discard = room.discard := rfl
theorem pushLogR_spectators (room : Room) (now : Nat) (ty : Str) :
    (pushLogR room now ty).spectators = room.spectators := rfl
theorem pushLogR_effects (room : Room) (now : Nat) (ty : Str) :
    (pushLogR room now ty).activeEffects = room.activeEffects := rfl
theorem pushLogR_log (room : Room) (now : Nat) (ty : Str) :
    (pushLogR room now ty).log = pushLog room.log ⟨now, ty⟩ := rfl
theorem pushLogR_started (room : Room) (now : Nat) (ty : Str) :
    (pushLogR room now ty).started = room.started := rfl
theorem pushLogR_paused (room : Room) (now : Nat) (ty : Str) :
    (pushLogR room now ty).paused = room.paused := rfl

theorem activePlayers_congr {x y : Room} (h : x.players = y.players) :
    activePlayers x = activePlayers y := by
  unfold activePlayers; rw [h]

/-- A room with no interaction and no timer is a fixed point of the sweep
tick. -/
theorem sweepRoom_noop (room : Room) (now : Nat)
    (h1 : room.interaction = Option.none) (h2 : room.turnTimer = Option.none) :
    sweepRoom room now = room := by
  unfold sweepRoom sweepTimer
  rw [h1, h2]
  dsimp only
  split <;> rfl

/-- C9: the state of a room after an expired enabled timer sweeps a drawn
card: the drawer is penalized one unit, the draw and timer are cleared and
the turn advances. -/
theorem sweepExpiry_shape (room : Room) (tt : TurnTimer) (d : Draw) (now : Nat)
    (hi : room.interaction = Option.none)
    (hs : room.started = true) (hp : room.paused = false)
    (ht : room.turnTimer = some tt) (hen : tt.enabled = true)
    (hex : tt.endsAt ≤ now) (hd : room.currentDraw = some d) :
    sweepRoom room now =
      nextTurn { (pushLogR { room with
        drinkStats := bumpTaken room.drinkStats d.drawnByPlayerId 1 } now
        (str "system")) with
        currentDraw := Option.none, turnTimer := Option.none } := by
  unfold sweepRoom sweepTimer
  rw [hi, ht, hd]
  dsimp only
  rw [if_neg (by simp [hs, hp]), if_neg (by simp [hen]), if_neg (by omega)]

/-- C9: when a room's enabled turn timer has passed its `endsAt` while a
card is drawn (and no interaction is active), the sweep applies the
one-unit penalty to the drawer exactly once, clears the draw and timer,
advances the turn exactly once, and every later sweep tick leaves the room
unchanged. -/
theorem c9_timer_expiry_once (room : Room) (tt : TurnTimer) (d : Draw)
    (now : Nat)
    (hi : room.interaction = Option.none)
    (hs : room.started = true) (hp : room.paused = false)
    (ht : room.turnTimer = some tt) (hen : tt.enabled = true)
    (hex : tt.endsAt ≤ now) (hd : room.currentDraw = some d) :
    takenOf (sweepRoom room now) d.drawnByPlayerId =
      takenOf room d.drawnByPlayerId + 1 ∧
    (∀ q, q ≠ d.drawnByPlayerId → takenOf (sweepRoom room now) q = takenOf room q) ∧
    (sweepRoom room now).currentDraw = Option.none ∧
    (sweepRoom room now).turnTimer = Option.none ∧
    (sweepRoom room now).interaction = Option.none ∧
    (sweepRoom room now).turnIndex =
      (if (activePlayers room).length = 0 then 0
       else (room.turnIndex + 1) % (activePlayers room).length) ∧
    (∀ now2, sweepRoom (sweepRoom room now) now2 = sweepRoom room now) := by
  have hstep := sweepExpiry_shape room tt d now hi hs hp ht hen hex hd
  have hint2 : (sweepRoom room now).interaction = Option.none := by
    rw [hstep]; simp only [nextTurn_int, pushLogR_int]; exact hi
  have htt2 : (sweepRoom room now).turnTimer = Option.none := by
    rw [hstep]; simp only [nextTurn_tt]
  refine ⟨?_, ?_, ?_, htt2, hint2, ?_, ?_⟩
  · rw [hstep]
    unfold takenOf
    simp only [nextTurn_stats, pushLogR_stats]
    rw [takenD_bumpTaken]
    simp
  · intro q hq
    rw [hstep]
    unfold takenOf
    simp only [nextTurn_stats, pushLogR_stats]
    rw [takenD_bumpTaken, if_neg hq]
  · rw [hstep]; simp only [nextTurn_cd]
  · rw [hstep]
    rw [nextTurn_ti]
    have hpl : ({ (pushLogR { room with
        drinkStats := bumpTaken room.drinkStats d.drawnByPlayerId 1 } now
        (str "system")) with
        currentDraw := Option.none, turnTimer := Option.none } : Room).players =
        room.players := by
      simp only [pushLogR_players]
    rw [activePlayers_congr hpl]
    simp only [pushLogR_ti]
  · intro now2
    exact sweepRoom_noop _ now2 hint2 htt2

/-- C9 witness at a concrete room: timer ended at 10, swept at 20. -/
theorem c9_witness :
    takenOf (sweepRoom roomC9 20) (str "hostpl") = takenOf roomC9 (str "hostpl") + 1 ∧
    (sweepRoom roomC9 20).currentDraw = Option.none ∧
    (sweepRoom roomC9 20).turnTimer = Option.none ∧
    (sweepRoom roomC9 20).turnIndex =
      (if (activePlayers roomC9).length = 0 then 0
       else (roomC9.turnIndex + 1) % (activePlayers roomC9).length) ∧
    (∀ now2, sweepRoom (sweepRoom roomC9 20) now2 = sweepRoom roomC9 20) := by
  obtain ⟨h1, _, h3, h4, _, h6, h7⟩ :=
    c9_timer_expiry_once roomC9 ⟨true, 30, 10, Option.none⟩ ⟨str "c1", str "hostpl"⟩
      20 (by decide) (by decide) (by decide) (by decide) (by decide) (by decide)
      (by decide)
  exact ⟨h1, h3, h4, h6, h7⟩

/-- C10: a successful `room:setDeck` installs the sanitized order, resets
the draw cursor, clears the discard history, the current draw and the
timer, appends a log entry, and leaves players, spectators, turn index,
active effects, drink tallies and pending acks unchanged. -/
theorem c10_set_deck_frame (cat : Catalog) (room : Room) (pid : Str)
    (order : List Str) (now : Nat)
    (hv1 : isValidRoomCode room.roomCode = true)
    (hv2 : isValidPlayerId pid = true)
    (hh : isHost room pid = true)
    (hcl : sanitizeDeckOrder cat order ≠ []) :
    ∃ r2, setDeck cat room pid order now = .ok r2 ∧
      r2.settings.customDeckOrder = sanitizeDeckOrder cat order ∧
      r2.settings.safeMode = room.settings.safeMode ∧
      r2.settings.dynamicWeighting = room.settings.dynamicWeighting ∧
      r2.drawIndex = 0 ∧ r2.discard = [] ∧
      r2.currentDraw = Option.none ∧ r2.turnTimer = Option.none ∧
      r2.players = room.players ∧ r2.spectators = room.spectators ∧
      r2.turnIndex = room.turnIndex ∧
      r2.activeEffects = room.activeEffects ∧
      r2.drinkStats = room.drinkStats ∧
      r2.pendingAcks = room.pendingAcks ∧
      r2.interaction = room.interaction ∧
      r2.log = pushLog room.log ⟨now, str "deck"⟩ := by
  have hstep : setDeck cat room pid order now =
      .ok (touchActivity (pushLogR { room with
        settings := { room.settings with customDeckOrder := sanitizeDeckOrder cat order },
        drawIndex := 0, discard := [], currentDraw := Option.none,
        turnTimer := Option.none } now (str "deck")) now) := by
    unfold setDeck
    rw [if_neg (by simp [hv1, hv2]), if_neg (by simp [hh]), if_neg hcl]
  refine ⟨_, hstep, ?_, ?_, ?_, ?_, ?_, ?_, ?_, ?_, ?_, ?_, ?_, ?_, ?_, ?_, ?_⟩ <;>
    simp only [touchActivity_settings, pushLogR_settings,
      touchActivity_drawIndex, pushLogR_drawIndex, touchActivity_discard,
      pushLogR_discard, touchActivity_cd, pushLogR_cd, touchActivity_tt,
      pushLogR_tt, touchActivity_players, pushLogR_players,
      touchActivity_spectators, pushLogR_spectators, touchActivity_ti,
      pushLogR_ti, touchActivity_effects, pushLogR_effects,
      touchActivity_stats, pushLogR_stats, touchActivity_acks, pushLogR_acks,
      touchActivity_int, pushLogR_int, touchActivity_log, pushLogR_log]

/-- C10 witness: the host replaces the deck with a one-card order. -/
theorem c10_witness :
    ∃ r2, setDeck catTwo roomC1 (str "hostpl") [str "c2", str "zz"] 9 = .ok r2 ∧
      r2.settings.customDeckOrder = sanitizeDeckOrder catTwo [str "c2", str "zz"] ∧
      r2.settings.safeMode = roomC1.settings.safeMode ∧
      r2.settings.dynamicWeighting = roomC1.settings.dynamicWeighting ∧
      r2.drawIndex = 0 ∧ r2.discard = [] ∧
      r2.currentDraw = Option.none ∧ r2.turnTimer = Option.none ∧
      r2.players = roomC1.players ∧ r2.spectators = roomC1.spectators ∧
      r2.turnIndex = roomC1.turnIndex ∧
      r2.activeEffects = roomC1.activeEffects ∧
      r2.drinkStats = roomC1.drinkStats ∧
      r2.pendingAcks = roomC1.pendingAcks ∧
      r2.interaction = roomC1.interaction ∧
      r2.log = pushLog roomC1.log ⟨9, str "deck"⟩ :=
  c10_set_deck_frame catTwo roomC1 (str "hostpl") [str "c2", str "zz"] 9
    (by decide) (by decide) (by decide) (by decide)

/-- C6 counterexample: a plain event card gets a 60-second timer, not the
90 seconds the claim's "+60s over the 30s base" formula yields. -/
theorem c6_counterexample :
    computeTimer cardEvent = ⟨true, 60, Option.none⟩ ∧
    claimTimerSeconds cardEvent = 90 ∧
    (computeTimer cardEvent).seconds ≠ claimTimerSeconds cardEvent := by decide

/-- C6 amended: the computed timer matches the claim with the event raise
read as "to 60s" (+30s) instead of "+60s"; everything else (base 30s, +15s
multi-effect categories, kind additions, [20,90] clamp, disabled timer for
free-text rule cards and discussion-format cards) is as claimed. -/
theorem c6_amended_timer (card : Card) : computeTimer card = amendedTimer card := by
  unfold computeTimer amendedTimer
  dsimp only
  split_ifs <;>
    first
      | rfl
      | ((congr 1 <;> norm_num); done)
      | simp_all

/-! C4: draw/interaction exclusivity. -/

theorem turnDraw_rejects_interaction (cat : Catalog) (room : Room) (pid : Str)
    (u : ℚ) (now : Nat)
    (hv1 : isValidRoomCode room.roomCode = true)
    (hv2 : isValidPlayerId pid = true)
    (hs : room.started = true) (hp : room.paused = false)
    (ht : assertIsTurnPlayer room pid = Option.none)
    (hcd : room.currentDraw = Option.none)
    (hint : room.interaction.isSome = true) :
    turnDraw cat room pid u now = .error Err.INTERACTION_ACTIVE := by
  unfold turnDraw
  rw [ht]
  simp [hv1, hv2, hs, hp, hcd, hint]

theorem cardResolve_rps_shape {cat : Catalog} {room : Room} {pid cid : Str}
    {res : Resolution} {now : Nat} {rid a1 a2 : Str} {card : Card} {r2 : Room}
    (hc : catFind cat cid = some card)
    (hk : card.resolution = ResKind.rockPaperScissors)
    (h : cardResolve cat room pid cid res now rid a1 a2 = .ok r2) :
    r2.currentDraw = Option.none ∧ r2.turnTimer = Option.none ∧
    r2.interaction = some (Interaction.rps
      ⟨card.id, pid, res.targetPlayerId, now, now + 60000, []⟩) := by
  unfold cardResolve at h
  rw [hc] at h
  dsimp only at h
  repeat' split at h
  all_goals first
    | exact Except.noConfusion h
    | exact absurd hk (by assumption)
    | (injection h with h2; subst h2; exact launchRps_shape _ _ _ _ _)

theorem cardResolve_wyr_shape {cat : Catalog} {room : Room} {pid cid : Str}
    {res : Resolution} {now : Nat} {rid a1 a2 : Str} {card : Card} {r2 : Room}
    (hc : catFind cat cid = some card)
    (hk : card.resolution = ResKind.wouldYouRather)
    (h : cardResolve cat room pid cid res now rid a1 a2 = .ok r2) :
    r2.currentDraw = Option.none ∧ r2.turnTimer = Option.none ∧
    ∃ i : WyrInter, r2.interaction = some (Interaction.wyr i) ∧
      i.expiresAt = now + 75000 := by
  unfold cardResolve at h
  rw [hc] at h
  dsimp only at h
  repeat' split at h
  all_goals first
    | exact Except.noConfusion h
    | exact absurd hk (by assumption)
    | (injection h with h2; subst h2; exact launchWyr_shape _ _ _ _)
    | (injection h with h2; subst h2; simp_all)

/-- C4: `currentDraw` and `interaction` are never both non-null on any
reachable room; a `turn:draw` while an interaction is active (the earlier
guards passing) is rejected with `INTERACTION_ACTIVE`; launching a duel or
group vote clears the draw and the timer and installs an interaction whose
absolute expiry is 60 seconds (duel) or 75 seconds (group vote) from
launch. -/
theorem c4_draw_interaction_exclusive :
    (∀ (cat : Catalog) (code hpid hname : Str) (now0 : Nat) (es : List Event),
      mutexDraw (runEvents cat code hpid hname now0 es)) ∧
    (∀ (cat : Catalog) (room : Room) (pid : Str) (u : ℚ) (now : Nat),
      isValidRoomCode room.roomCode = true → isValidPlayerId pid = true →
      room.started = true → room.paused = false →
      assertIsTurnPlayer room pid = Option.none →
      room.currentDraw = Option.none → room.interaction.isSome = true →
      turnDraw cat room pid u now = .error Err.INTERACTION_ACTIVE) ∧
    (∀ (cat : Catalog) (room : Room) (pid cid : Str) (res : Resolution)
      (now : Nat) (rid a1 a2 : Str) (card : Card) (r2 : Room),
      catFind cat cid = some card →
      card.resolution = ResKind.rockPaperScissors →
      cardResolve cat room pid cid res now rid a1 a2 = .ok r2 →
      r2.currentDraw = Option.none ∧ r2.turnTimer = Option.none ∧
        r2.interaction = some (Interaction.rps
          ⟨card.id, pid, res.targetPlayerId, now, now + 60000, []⟩)) ∧
    (∀ (cat : Catalog) (room : Room) (pid cid : Str) (res : Resolution)
      (now : Nat) (rid a1 a2 : Str) (card : Card) (r2 : Room),
      catFind cat cid = some card →
      card.resolution = ResKind.wouldYouRather →
      cardResolve cat room pid cid res now rid a1 a2 = .ok r2 →
      r2.currentDraw = Option.none ∧ r2.turnTimer = Option.none ∧
        ∃ i : WyrInter, r2.interaction = some (Interaction.wyr i) ∧
          i.expiresAt = now + 75000) :=
  ⟨runEvents_mutex,
   fun cat room pid u now hv1 hv2 hs hp ht hcd hint =>
     turnDraw_rejects_interaction cat room pid u now hv1 hv2 hs hp ht hcd hint,
   fun _ _ _ _ _ _ _ _ _ _ _ hc hk h => cardResolve_rps_shape hc hk h,
   fun _ _ _ _ _ _ _ _ _ _ _ hc hk h => cardResolve_wyr_shape hc hk h⟩

/-- C4 witness at concrete rooms: the invariant on a concrete reachable
trace; a rejected draw during a duel; the concrete duel and group-vote
launches with their 60- and 75-second expiries. -/
theorem c4_witness :
    mutexDraw (runEvents catPlain (str "ROOM01") (str "hostpl") (str "Al") 0 evC3) ∧
    turnDraw catInter roomC4a (str "hostpl") 0 5 = .error Err.INTERACTION_ACTIVE ∧
    (roomC4bAfter.currentDraw = Option.none ∧
     roomC4bAfter.turnTimer = Option.none ∧
     roomC4bAfter.interaction = some (Interaction.rps
       ⟨cardDuel.id, str "hostpl", str "playr2", 5, 5 + 60000, []⟩)) ∧
    (roomC4cAfter.currentDraw = Option.none ∧
     roomC4cAfter.turnTimer = Option.none ∧
     ∃ i : WyrInter, roomC4cAfter.interaction = some (Interaction.wyr i) ∧
       i.expiresAt = 5 + 75000) :=
  ⟨c4_draw_interaction_exclusive.1 catPlain (str "ROOM01") (str "hostpl")
     (str "Al") 0 evC3,
   c4_draw_interaction_exclusive.2.1 catInter roomC4a (str "hostpl") 0 5
     (by decide) (by decide) (by decide) (by decide) (by decide) (by decide)
     (by decide),
   c4_draw_interaction_exclusive.2.2.1 catInter roomC4b (str "hostpl")
     (str "c4") { targetPlayerId := str "playr2" } 5 (str "r1") (str "a1xxxx")
     (str "a2xxxx") cardDuel roomC4bAfter (by decide) (by decide) (by decide),
   c4_draw_interaction_exclusive.2.2.2 catInter roomC4c (str "hostpl")
     (str "c5") {} 5 (str "r1") (str "a1xxxx") (str "a2xxxx") cardVote
     roomC4cAfter (by decide) (by decide) (by decide)⟩

/-! C1: two-target validation. -/

theorem resolveNormal_acks_two (room : Room) (card : Card) (p : Str)
    (res : Resolution) (now : Nat) (rid a1 a2 : Str)
    (hk : card.resolution = ResKind.chooseTwoTargets) :
    (resolveNormal room card p res now rid a1 a2).pendingAcks.length =
      room.pendingAcks.length + 2 := by
  obtain ⟨eff, h1⟩ := applyCard_eq room card p res rid
  obtain ⟨stats, h2⟩ := applyDrinkStats_eq { room with activeEffects := eff } card p res
  simp only [resolveNormal, h1, h2, touchActivity_acks, nextTurn_acks]
  unfold attachAcks
  rw [if_pos (by simp [requiresAck, hk])]
  simp only [clearDrawTimer_acks, pushLogR_acks]
  rw [List.length_append]
  congr 1
  unfold ackList
  rw [if_neg (by simp [hk])]
  rfl

theorem c1_reduce (cat : Catalog) (room : Room) (pid cid : Str)
    (res : Resolution) (now : Nat) (rid a1 a2 : Str) (card : Card)
    (hv1 : isValidRoomCode room.roomCode = true)
    (hv2 : isValidPlayerId pid = true) (hcid : cid ≠ [])
    (ht : assertIsTurnPlayer room pid = Option.none)
    (hd : room.currentDraw = some ⟨cid, pid⟩)
    (hc : catFind cat cid = some card)
    (hk : card.resolution = ResKind.chooseTwoTargets) :
    cardResolve cat room pid cid res now rid a1 a2 =
      (if res.targetPlayerId = [] ∨ res.targetPlayerId2 = [] then
        .error Err.MISSING_TARGETS
       else .ok (resolveNormal room card pid res now rid a1 a2)) := by
  unfold cardResolve
  rw [ht, hd, hc]
  dsimp only
  rw [hk]
  simp [hv1, hv2, hcid]

/-- C1 counterexample: resolving the two-target card with the same
non-empty player named twice does not fail — it succeeds, creates two
receipts for that player and advances the turn, so the room state changes. -/
theorem c1_counterexample :
    ((cardResolve catTwo roomC1 (str "hostpl") (str "c2") resC1 5 (str "r1")
        (str "a1xxxx") (str "a2xxxx")).map
      (fun r => (r.pendingAcks.length, r.turnIndex))) = Except.ok (2, 1) := by
  decide

/-- C1 amended: the two-target validation fails with `MISSING_TARGETS`
exactly when one of the two targets is empty (a failure performs no
mutation because the handler returns before mutating); two equal non-empty
targets pass validation and the card resolves, appending two receipts. -/
theorem c1_two_targets (cat : Catalog) (room : Room) (pid cid : Str)
    (res : Resolution) (now : Nat) (rid a1 a2 : Str) (card : Card)
    (hv1 : isValidRoomCode room.roomCode = true)
    (hv2 : isValidPlayerId pid = true) (hcid : cid ≠ [])
    (ht : assertIsTurnPlayer room pid = Option.none)
    (hd : room.currentDraw = some ⟨cid, pid⟩)
    (hc : catFind cat cid = some card)
    (hk : card.resolution = ResKind.chooseTwoTargets) :
    (cardResolve cat room pid cid res now rid a1 a2 =
        .error Err.MISSING_TARGETS ↔
      (res.targetPlayerId = [] ∨ res.targetPlayerId2 = [])) ∧
    (res.targetPlayerId ≠ [] → res.targetPlayerId2 ≠ [] →
      ∃ r2, cardResolve cat room pid cid res now rid a1 a2 = .ok r2 ∧
        r2.pendingAcks.length = room.pendingAcks.length + 2) := by
  have hred := c1_reduce cat room pid cid res now rid a1 a2 card hv1 hv2 hcid
    ht hd hc hk
  constructor
  · rw [hred]
    by_cases hemp : res.targetPlayerId = [] ∨ res.targetPlayerId2 = []
    · rw [if_pos hemp]; simp [hemp]
    · rw [if_neg hemp]; simp [hemp]
  · intro h1 h2
    rw [hred, if_neg (by tauto)]
    exact ⟨_, rfl, resolveNormal_acks_two room card pid res now rid a1 a2 hk⟩

/-- C1 witness: the amended statement at the concrete room with both
targets naming the same player. -/
theorem c1_witness :
    ((cardResolve catTwo roomC1 (str "hostpl") (str "c2") resC1 5 (str "r1")
        (str "a1xxxx") (str "a2xxxx") = .error Err.MISSING_TARGETS ↔
      (resC1.targetPlayerId = [] ∨ resC1.targetPlayerId2 = [])) ∧
    (resC1.targetPlayerId ≠ [] → resC1.targetPlayerId2 ≠ [] →
      ∃ r2, cardResolve catTwo roomC1 (str "hostpl") (str "c2") resC1 5
          (str "r1") (str "a1xxxx") (str "a2xxxx") = .ok r2 ∧
        r2.pendingAcks.length = roomC1.pendingAcks.length + 2)) :=
  c1_two_targets catTwo roomC1 (str "hostpl") (str "c2") resC1 5 (str "r1")
    (str "a1xxxx") (str "a2xxxx") cardTwo (by decide) (by decide) (by decide)
    (by decide) (by decide) (by decide) (by decide)

/-! C3: turn index vs. vacated seats. -/

/-- C3 counterexample: a reachable room (host creates, two players join,
the host kicks the seat-1 player, draws and resolves a card) in which the
active-player set is non-empty yet no active player sits at `turnIndex`:
seats are not renumbered, while `nextTurn` works modulo the live count. -/
theorem c3_counterexample :
    activePlayers roomC3 ≠ [] ∧
    ∀ p ∈ activePlayers roomC3, p.seatIndex ≠ (roomC3.turnIndex : ℤ) := by
  decide

/-- C3 amended: whenever no active player's seat equals `turnIndex` —
including, but not only, when the active set is empty — every action that
requires a turn holder fails with `NO_TURN_PLAYER`. -/
theorem c3_no_turn_player (room : Room) (pid : Str)
    (hno : ∀ p ∈ activePlayers room, p.seatIndex ≠ (room.turnIndex : ℤ)) :
    assertIsTurnPlayer room pid = some Err.NO_TURN_PLAYER ∧
    (∀ (cat : Catalog) (u : ℚ) (now : Nat),
      isValidRoomCode room.roomCode = true → isValidPlayerId pid = true →
      room.started = true → room.paused = false →
      turnDraw cat room pid u now = .error Err.NO_TURN_PLAYER) := by
  have hcur : currentTurnPlayer room = Option.none := by
    unfold currentTurnPlayer
    apply List.find?_eq_none.mpr
    intro p hp
    simpa using hno p hp
  have hassert : assertIsTurnPlayer room pid = some Err.NO_TURN_PLAYER := by
    unfold assertIsTurnPlayer; rw [hcur]
  refine ⟨hassert, ?_⟩
  intro cat u now hv1 hv2 hs hp
  unfold turnDraw
  rw [hassert]
  simp [hv1, hv2, hs, hp]

/-- C3 witness: the amended statement at the concrete reachable room of
the counterexample. -/
theorem c3_witness :
    assertIsTurnPlayer roomC3 (str "hostpl") = some Err.NO_TURN_PLAYER ∧
    (∀ (cat : Catalog) (u : ℚ) (now : Nat),
      isValidRoomCode roomC3.roomCode = true →
      isValidPlayerId (str "hostpl") = true →
      roomC3.started = true → roomC3.paused = false →
      turnDraw cat roomC3 (str "hostpl") u now = .error Err.NO_TURN_PLAYER) :=
  c3_no_turn_player roomC3 (str "hostpl") (by decide)

/-! C2: ack confirmation. -/

theorem confirmFirst_filter (l : List Ack) (i : Str) (now : Nat)
    (hall : ∀ a ∈ l, a.status = AckStatus.pending)
    (huniq : l.countP (fun a => a.ackId = i) ≤ 1) :
    (confirmFirst l i now).filter (fun a => a.status ≠ AckStatus.confirmed) =
      l.filter (fun a => ¬(a.ackId = i)) := by
  induction l with
  | nil => rfl
  | cons a l ih =>
    unfold confirmFirst
    by_cases h : a.ackId = i
    · rw [if_pos h]
      have hcount : l.countP (fun a => a.ackId = i) = 0 := by
        have h2 := huniq
        rw [List.countP_cons, if_pos (by simp [h])] at h2
        omega
      have hno : ∀ b ∈ l, ¬(b.ackId = i) := by
        intro b hb hbi
        have hpos : 0 < l.countP (fun a => a.ackId = i) :=
          List.countP_pos_iff.mpr ⟨b, hb, by simp [hbi]⟩
        omega
      rw [List.filter_cons, List.filter_cons]
      rw [if_neg (by simp), if_neg (by simp [h])]
      rw [List.filter_eq_self.mpr (fun b hb => by simp [hall b (List.mem_cons_of_mem a hb)]),
        List.filter_eq_self.mpr (fun b hb => by simp [hno b hb])]
    · rw [if_neg h]
      rw [List.filter_cons, List.filter_cons]
      rw [if_pos (by simp [hall a (List.mem_cons_self a l)]), if_pos (by simp [h])]
      congr 1
      apply ih
      · exact fun b hb => hall b (List.mem_cons_of_mem a hb)
      · rw [List.countP_cons, if_neg (by simp [h])] at huniq
        omega

/-- C2 counterexample: after a successful first confirmation the receipt
is pruned, so confirming the same ack id a second time returns
`ACK_NOT_FOUND` rather than success. -/
theorem c2_counterexample :
    ((ackConfirm roomC2 (str "playr2") (str "ak1234") 7).map
      (fun r => ackConfirm r (str "playr2") (str "ak1234") 9)) =
    Except.ok (Except.error Err.ACK_NOT_FOUND) := by decide

/-- C2 amended: the first confirmation by the assignee succeeds, prunes
exactly the receipts with that ack id from the pending list and changes no
drink tally; a second confirmation of the same ack id then fails with
`ACK_NOT_FOUND` (it has no effect rather than returning success). -/
theorem c2_confirm_twice (room : Room) (p i : Str) (now now2 : Nat) (ack : Ack)
    (hv1 : isValidRoomCode room.roomCode = true)
    (hv2 : isValidPlayerId p = true) (hi : i ≠ [])
    (hfind : room.pendingAcks.find? (fun a => a.ackId = i) = some ack)
    (hassigned : ack.assignedToPlayerId = p)
    (hall : ∀ a ∈ room.pendingAcks, a.status = AckStatus.pending)
    (huniq : room.pendingAcks.countP (fun a => a.ackId = i) ≤ 1) :
    ∃ r2, ackConfirm room p i now = .ok r2 ∧
      r2.pendingAcks = room.pendingAcks.filter (fun a => ¬(a.ackId = i)) ∧
      r2.drinkStats = room.drinkStats ∧
      ackConfirm r2 p i now2 = .error Err.ACK_NOT_FOUND := by
  have hpend : ack.status = AckStatus.pending :=
    hall ack (List.mem_of_find?_eq_some hfind)
  have hstep : ackConfirm room p i now = .ok { room with
      pendingAcks := (confirmFirst room.pendingAcks i now).filter
        (fun a => a.status ≠ AckStatus.confirmed),
      lastActivity := now } := by
    unfold ackConfirm
    rw [hfind]
    dsimp only
    rw [if_neg (by simp [hv1, hv2, hi]), if_neg (by simp [hassigned]),
      if_neg (by simp [hpend])]
  rw [confirmFirst_filter room.pendingAcks i now hall huniq] at hstep
  refine ⟨_, hstep, rfl, rfl, ?_⟩
  have hnone : ((room.pendingAcks.filter (fun a => ¬(a.ackId = i))).find?
      (fun a => a.ackId = i)) = Option.none := by
    apply List.find?_eq_none.mpr
    intro b hb
    have hmem := (List.mem_filter.mp hb).2
    simpa using hmem
  unfold ackConfirm
  rw [if_neg (by simp [hv1, hv2, hi])]
  dsimp only
  rw [hnone]

/-- C2 witness: the amended statement at the concrete one-ack room. -/
theorem c2_witness :
    ∃ r2, ackConfirm roomC2 (str "playr2") (str "ak1234") 7 = .ok r2 ∧
      r2.pendingAcks = roomC2.pendingAcks.filter
        (fun a => ¬(a.ackId = str "ak1234")) ∧
      r2.drinkStats = roomC2.drinkStats ∧
      ackConfirm r2 (str "playr2") (str "ak1234") 9 =
        .error Err.ACK_NOT_FOUND :=
  c2_confirm_twice roomC2 (str "playr2") (str "ak1234") 7 9 ack0 (by decide)
    (by decide) (by decide) (by decide) (by decide) (by decide) (by decide)

/-! C7: group-vote outcome. -/

theorem c7_group_vote (room : Room) (inter : WyrInter) (now : Nat)
    (hi : room.interaction = some (Interaction.wyr inter))
    (hnd : (activeIds room).Nodup) :
    ((votersFor room inter Vote.A).length = (votersFor room inter Vote.B).length →
      (∀ pid ∈ activeIds room,
        takenOf (finalizeWouldYouRather room now) pid = takenOf room pid + 1) ∧
      (∀ pid, pid ∉ activeIds room →
        takenOf (finalizeWouldYouRather room now) pid = takenOf room pid)) ∧
    ((votersFor room inter Vote.A).length < (votersFor room inter Vote.B).length →
      (∀ pid ∈ votersFor room inter Vote.A,
        takenOf (finalizeWouldYouRather room now) pid = takenOf room pid + 1) ∧
      (∀ pid, pid ∉ votersFor room inter Vote.A →
        takenOf (finalizeWouldYouRather room now) pid = takenOf room pid)) ∧
    ((votersFor room inter Vote.B).length < (votersFor room inter Vote.A).length →
      (∀ pid ∈ votersFor room inter Vote.B,
        takenOf (finalizeWouldYouRather room now) pid = takenOf room pid + 1) ∧
      (∀ pid, pid ∉ votersFor room inter Vote.B →
        takenOf (finalizeWouldYouRather room now) pid = takenOf room pid)) := by
  have hkey : ∀ q, takenOf (finalizeWouldYouRather room now) q =
      ((alookup
        (if (votersFor room inter Vote.A).length = (votersFor room inter Vote.B).length
         then (activeIds room).foldl (fun m pid => bumpTaken m pid 1) room.drinkStats
         else if (votersFor room inter Vote.A).length < (votersFor room inter Vote.B).length
         then (votersFor room inter Vote.A).foldl (fun m pid => bumpTaken m pid 1) room.drinkStats
         else (votersFor room inter Vote.B).foldl (fun m pid => bumpTaken m pid 1) room.drinkStats)
        q).getD ⟨0, 0⟩).taken := by
    intro q
    unfold finalizeWouldYouRather
    rw [hi]
    dsimp only
    unfold takenOf
    simp only [nextTurn_stats, pushLogR_stats, votersFor, activeIds]
  have hndA : (votersFor room inter Vote.A).Nodup := hnd.filter _
  have hndB : (votersFor room inter Vote.B).Nodup := hnd.filter _
  refine ⟨?_, ?_, ?_⟩
  · intro hcond
    constructor
    · intro pid hmem
      rw [hkey pid, if_pos hcond, takenD_foldBump,
        countP_eq_one_of_nodup_mem hnd hmem]
      simp [takenOf]
    · intro pid hmem
      rw [hkey pid, if_pos hcond, takenD_foldBump,
        countP_eq_zero_of_not_mem hmem]
      simp [takenOf]
  · intro hcond
    constructor
    · intro pid hmem
      rw [hkey pid, if_neg (Nat.ne_of_lt hcond), if_pos hcond, takenD_foldBump,
        countP_eq_one_of_nodup_mem hndA hmem]
      simp [takenOf]
    · intro pid hmem
      rw [hkey pid, if_neg (Nat.ne_of_lt hcond), if_pos hcond, takenD_foldBump,
        countP_eq_zero_of_not_mem hmem]
      simp [takenOf]
  · intro hcond
    constructor
    · intro pid hmem
      rw [hkey pid, if_neg (Nat.ne_of_gt hcond), if_neg (Nat.not_lt.mpr (Nat.le_of_lt hcond)),
        takenD_foldBump, countP_eq_one_of_nodup_mem hndB hmem]
      simp [takenOf]
    · intro pid hmem
      rw [hkey pid, if_neg (Nat.ne_of_gt hcond), if_neg (Nat.not_lt.mpr (Nat.le_of_lt hcond)),
        takenD_foldBump, countP_eq_zero_of_not_mem hmem]
      simp [takenOf]

/-- C7 witness: a concrete 3-A-versus-2-B vote penalizes exactly the two B
voters (instantiating the minority conjunct at the five-player room). -/
theorem c7_witness :
    (votersFor roomC7 wyr32 Vote.B).length < (votersFor roomC7 wyr32 Vote.A).length ∧
    (∀ pid ∈ votersFor roomC7 wyr32 Vote.B,
      takenOf (finalizeWouldYouRather roomC7 0) pid = takenOf roomC7 pid + 1) ∧
    (∀ pid, pid ∉ votersFor roomC7 wyr32 Vote.B →
      takenOf (finalizeWouldYouRather roomC7 0) pid = takenOf roomC7 pid) := by
  have h := (c7_group_vote roomC7 wyr32 0 (by decide) (by decide)).2.2 (by decide)
  exact ⟨by decide, h.1, h.2⟩

/-! C8: duel resolution. -/

theorem c8_duel (room : Room) (inter : RpsInter) (pid : Str)
    (choice : RpsChoice) (now : Nat) (ca cb : RpsChoice)
    (hi : room.interaction = some (Interaction.rps inter))
    (hv1 : isValidRoomCode room.roomCode = true)
    (hv2 : isValidPlayerId pid = true)
    (hab : inter.startedByPlayerId ≠ inter.opponentPlayerId)
    (hpart : pid = inter.startedByPlayerId ∨ pid = inter.opponentPlayerId)
    (ha : alookup (aset inter.choices pid choice) inter.startedByPlayerId = some ca)
    (hb : alookup (aset inter.choices pid choice) inter.opponentPlayerId = some cb) :
    ∃ r2, rpsChoose room pid choice now = .ok r2 ∧
      r2.interaction = Option.none ∧
      r2.turnIndex = (if (activePlayers room).length = 0 then 0
        else (room.turnIndex + 1) % (activePlayers room).length) ∧
      (ca = cb →
        takenOf r2 inter.startedByPlayerId = takenOf room inter.startedByPlayerId + 1 ∧
        takenOf r2 inter.opponentPlayerId = takenOf room inter.opponentPlayerId + 1) ∧
      (beats ca = cb →
        takenOf r2 inter.opponentPlayerId = takenOf room inter.opponentPlayerId + 1 ∧
        takenOf r2 inter.startedByPlayerId = takenOf room inter.startedByPlayerId) ∧
      (beats cb = ca → ca ≠ cb →
        takenOf r2 inter.startedByPlayerId = takenOf room inter.startedByPlayerId + 1 ∧
        takenOf r2 inter.opponentPlayerId = takenOf room inter.opponentPlayerId) ∧
      (∀ q, q ≠ inter.startedByPlayerId → q ≠ inter.opponentPlayerId →
        takenOf r2 q = takenOf room q) := by
  have hstep : rpsChoose room pid choice now = .ok
      (touchActivity (nextTurn
        { (pushLogR { { room with interaction := some (Interaction.rps
            { inter with choices := aset inter.choices pid choice }) } with
            drinkStats :=
              (if ca = cb then
                bumpTaken (bumpTaken room.drinkStats inter.startedByPlayerId 1)
                  inter.opponentPlayerId 1
               else if beats ca = cb then
                bumpTaken room.drinkStats inter.opponentPlayerId 1
               else
                bumpTaken room.drinkStats inter.startedByPlayerId 1) }
          now (str "system")) with interaction := Option.none }) now) := by
    unfold rpsChoose
    rw [hi]
    dsimp only
    rw [if_neg (by simp [hv1, hv2]),
      if_neg (by rcases hpart with h | h <;> simp [h]), ha, hb]
  have hne_ba : ¬(inter.opponentPlayerId = inter.startedByPlayerId) :=
    fun hh => hab hh.symm
  refine ⟨_, hstep, ?_, ?_, ?_, ?_, ?_, ?_⟩
  · simp only [touchActivity_int, nextTurn_int]
  · simp only [touchActivity_ti, nextTurn_ti, activePlayers, pushLogR_players,
      pushLogR_ti]
  · intro hcc
    constructor
    · unfold takenOf
      simp only [touchActivity_stats, nextTurn_stats, pushLogR_stats]
      rw [if_pos hcc, takenD_bumpTaken, if_neg hab, takenD_bumpTaken,
        if_pos rfl]
    · unfold takenOf
      simp only [touchActivity_stats, nextTurn_stats, pushLogR_stats]
      rw [if_pos hcc, takenD_bumpTaken, if_pos rfl, takenD_bumpTaken,
        if_neg hne_ba]
  · intro hbeats
    have hne : ¬(ca = cb) := by
      intro hcc
      rw [← hcc] at hbeats
      cases ca <;> simp [beats] at hbeats
    constructor
    · unfold takenOf
      simp only [touchActivity_stats, nextTurn_stats, pushLogR_stats]
      rw [if_neg hne, if_pos hbeats, takenD_bumpTaken, if_pos rfl]
    · unfold takenOf
      simp only [touchActivity_stats, nextTurn_stats, pushLogR_stats]
      rw [if_neg hne, if_pos hbeats, takenD_bumpTaken, if_neg hab]
  · intro hba hne
    have hnb : ¬(beats ca = cb) := by
      intro hcontra
      rw [← hcontra] at hba
      cases ca <;> simp [beats] at hba
    constructor
    · unfold takenOf
      simp only [touchActivity_stats, nextTurn_stats, pushLogR_stats]
      rw [if_neg hne, if_neg hnb, takenD_bumpTaken, if_pos rfl]
    · unfold takenOf
      simp only [touchActivity_stats, nextTurn_stats, pushLogR_stats]
      rw [if_neg hne, if_neg hnb, takenD_bumpTaken, if_neg hne_ba]
  · intro q hqa hqb
    unfold takenOf
    simp only [touchActivity_stats, nextTurn_stats, pushLogR_stats]
    split_ifs
    · rw [takenD_bumpTaken, if_neg hqb, takenD_bumpTaken, if_neg hqa]
    · rw [takenD_bumpTaken, if_neg hqb]
    · rw [takenD_bumpTaken, if_neg hqa]

/-- C8 witness: with the challenger having picked rock, the opponent picks
scissors; the duel resolves immediately, the opponent (B) loses one unit,
the interaction clears and the turn advances. -/
theorem c8_witness :
    ∃ r2, rpsChoose roomC8 (str "playr2") RpsChoice.scissors 9 = .ok r2 ∧
      r2.interaction = Option.none ∧
      r2.turnIndex = (if (activePlayers roomC8).length = 0 then 0
        else (roomC8.turnIndex + 1) % (activePlayers roomC8).length) ∧
      takenOf r2 (str "playr2") = takenOf roomC8 (str "playr2") + 1 ∧
      takenOf r2 (str "hostpl") = takenOf roomC8 (str "hostpl") := by
  obtain ⟨r2, h1, h2, h3, _, h5, _, _⟩ :=
    c8_duel roomC8 rpsA (str "playr2") RpsChoice.scissors 9 RpsChoice.rock
      RpsChoice.scissors (by decide) (by decide) (by decide) (by decide)
      (Or.inr (by decide)) (by decide) (by decide)
  obtain ⟨h5a, h5b⟩ := h5 (by decide)
  exact ⟨r2, h1, h2, h3, h5a, h5b⟩

/-! C5: weighted-draw refinement. -/

/-- C5 (confirmed): in weighted mode the draw the code performs is exactly
the spec-described procedure — each candidate carries the weight
`specWeight` (base-weight table, 0.25 recency factor, 0.5/0.7 forfeit
pressure, 0.65 type clustering, floored at 0.05), and the drawn id is the
cumulative-weight roulette over that list with the last candidate as
fallback, for every uniform sample `u`. -/
theorem c5_weighted_draw (cat : Catalog) (room : Room) (u : ℚ) :
    pickWeightedNextCard cat room u =
      rouletteLoop (specWeightedList cat room)
        (u * ((specWeightedList cat room).map Prod.snd).sum)
        Option.none := by
  unfold pickWeightedNextCard specWeightedList specCandidates
  dsimp only
  have hmap : ∀ (f g : Card → Str × ℚ), (∀ c, f c = g c) →
      ∀ L : List Card, L.map f = L.map g := by
    intro f g h L
    induction L with
    | nil => rfl
    | cons a t ih => simp [h a, ih]
  have key : ∀ (f g : Card → Str × ℚ), (∀ c, f c = g c) →
      ∀ L : List Card,
      rouletteLoop (L.map f)
        (u * ((L.map f).map Prod.snd).sum) Option.none =
      rouletteLoop (L.map g)
        (u * ((L.map g).map Prod.snd).sum) Option.none := by
    intro f g h L
    rw [hmap f g h L]
  apply key
  intro c
  dsimp only
  unfold specWeight
  dsimp only
  refine congrArg (Prod.mk c.id) (congrArg (max ((1 : ℚ)/20)) ?_)
  split_ifs <;> ring
